import Mathlib

/-!
# Verification of the Alpha Contradiction Engine core

A shallow embedding, in Lean 4, of the reconciliation core of the
TradingAgents alpha pipeline: the uniform `Signal` record, the eight
per-category signal extractors, the pairwise contradiction detector with
its fixed rule table, the consensus scorer, the orchestrating signal
extraction loop of the runner, and the interpretation helper of the
continuous monitor.

Python floats are modelled as exact rationals (`ℚ`); all numeric literals
of the source are exact decimal fractions, so every threshold comparison
is faithfully represented.  Python `round(x, 2)` is modelled by `round2`
below.  Exceptions are modelled with `Except`; `None`-able values with
`Option`.
-/

namespace AlphaEngine

/-- Two-decimal rounding, modelling Python `round(x, 2)` on the exact
rational value.  (Python rounds half to even on binary floats; Mathlib's
`round` rounds half up.  The two agree except at exact half-cent ties,
which no computation in this development produces.) -/
def round2 (x : ℚ) : ℚ := ((round (x * 100) : ℤ) : ℚ) / 100

/-- Mean of a list of rationals, modelling `sum(scores) / len(scores)`. -/
def listMean (l : List ℚ) : ℚ := l.sum / (l.length : ℚ)

/-- Uppercasing, modelling Python `str.upper()` on ASCII identifiers. -/
def upperStr (s : String) : String := ⟨s.data.map Char.toUpper⟩

/-- Lowercasing, modelling Python `str.lower()`. -/
def lowerStr (s : String) : String := ⟨s.data.map Char.toLower⟩

/-- Predicate: `pat` occurs as a contiguous substring of `l`, modelling Python
`pat in text` on strings (viewed as character lists). -/
def listContainsSub (pat : List Char) : List Char → Bool
  | [] => pat.isEmpty
  | c :: rest => pat.isPrefixOf (c :: rest) || listContainsSub pat rest

/-- Python `pat in text` for strings. -/
def strContainsSub (text pat : String) : Bool := listContainsSub pat.data text.data

/-- Model of `signal_types.Signal`: a directional signal extracted from market
data.  The `data_points` diagnostic mapping of the source dataclass is
omitted: it is an audit trail of heterogeneous values that no computation
in the core (detector, scorer, interpreter) ever reads. -/
structure Signal where
  name : String
  direction : String
  strength : ℚ
  confidence : ℚ
  reasoning : String := ""
deriving DecidableEq

/-- Model of `contradiction_engine.Contradiction`: a detected contradiction
between two opposing signals. -/
structure Contradiction where
  signal_a : Signal
  signal_b : Signal
  severity : String := "low"
  category : String := ""
  description : String := ""
  historical_resolution : String := ""
deriving DecidableEq

/-- One entry of the contradiction rule table:
`(signal_a_name, signal_b_name, min_strength, category, resolution_note)`. -/
structure Rule where
  name_a : String
  name_b : String
  min_strength : ℚ
  category : String
  resolution : String
deriving DecidableEq

/-- The fixed, ordered rule table `_CONTRADICTION_RULES`. -/
def CONTRADICTION_RULES : List Rule := [
  ⟨"insider_activity", "valuation", 3/10, "smart_money_divergence",
    "Insider activity is more predictive than analyst ratings"⟩,
  ⟨"technical", "valuation", 4/10, "technical_fundamental_divergence",
    "Fundamentals tend to dominate over 3-6 months; technicals over 1-4 weeks"⟩,
  ⟨"options", "momentum", 3/10, "flow_vs_trend",
    "Options flow often leads momentum by 1-2 weeks"⟩,
  ⟨"insider_activity", "momentum", 3/10, "insider_vs_market",
    "Insiders have long-term edge; momentum can persist short-term"⟩,
  ⟨"insider_activity", "options", 3/10, "smart_money_vs_flow",
    "Both are informed-trader signals; conflict suggests uncertainty"⟩,
  ⟨"macro", "momentum", 3/10, "macro_vs_micro",
    "Macro headwinds eventually override single-stock momentum"⟩,
  ⟨"earnings", "valuation", 3/10, "earnings_risk",
    "Upcoming earnings can resolve valuation debates quickly"⟩,
  ⟨"news_sentiment", "insider_activity", 3/10, "news_vs_insider",
    "Positive news with insider selling suggests insiders know more than headlines"⟩,
  ⟨"news_sentiment", "momentum", 3/10, "news_vs_price",
    "Positive news but declining price suggests market has already priced it in"⟩]

/-- Model of `_classify_severity`: severity from combined strength and the two
confidences. -/
def classify_severity (combined_strength conf_a conf_b : ℚ) : String :=
  let avg_conf := (conf_a + conf_b) / 2
  let score := combined_strength * (6/10) + avg_conf * (4/10)
  if score ≥ 6/10 then "high"
  else if score ≥ 4/10 then "medium"
  else "low"

/-- Model of `_check_pair`: a `Contradiction` if two signals oppose each other
above threshold, `none` otherwise. -/
def check_pair (sig_a sig_b : Signal) (min_strength : ℚ)
    (category resolution : String) : Option Contradiction :=
  if sig_a.direction = "neutral" ∨ sig_b.direction = "neutral" then none
  else if sig_a.direction = sig_b.direction then none
  else if sig_a.strength < min_strength ∨ sig_b.strength < min_strength then none
  else if sig_a.confidence < 1/5 ∧ sig_b.confidence < 1/5 then none
  else
    let combined_strength := (sig_a.strength + sig_b.strength) / 2
    let severity := classify_severity combined_strength sig_a.confidence sig_b.confidence
    let description :=
      upperStr sig_a.name ++ " says " ++ sig_a.direction ++ " (" ++ sig_a.reasoning ++
      ") but " ++ upperStr sig_b.name ++ " says " ++ sig_b.direction ++ " (" ++
      sig_b.reasoning ++ ")"
    some ⟨sig_a, sig_b, severity, category, description, resolution⟩

/-- Severity sort key, modelling the dict
`\x7b"high": 0, "medium": 1, "low": 2\x7d[c.severity]` of `detect`.
The source raises `KeyError` on any other severity; emitted severities are
always one of the three (see `detect_unsorted_severity_mem`), so the
catch-all value 3 is unreachable on detector output. -/
def severity_rank (s : String) : ℕ :=
  if s = "high" then 0 else if s = "medium" then 1 else if s = "low" then 2 else 3

/-- Stable insertion (new element goes after all elements of rank at most
its own), the building block for modelling Python's stable `list.sort`. -/
def insert_by_severity (c : Contradiction) : List Contradiction → List Contradiction
  | [] => [c]
  | d :: ds =>
    if severity_rank d.severity ≤ severity_rank c.severity then
      d :: insert_by_severity c ds
    else c :: d :: ds

/-- Stable sort by severity rank, modelling
`contradictions.sort(key=...)` (Python's sort is stable). -/
def sort_by_severity (l : List Contradiction) : List Contradiction :=
  l.foldl (fun acc c => insert_by_severity c acc) []

/-- The lookup of `signal_map = \x7bs.name: s for s in signals\x7d`
followed by `signal_map.get(name)`: the LAST signal with the given name
wins, as in a Python dict comprehension. -/
def signal_map (signals : List Signal) (name : String) : Option Signal :=
  signals.foldl (fun acc s => if s.name = name then some s else acc) none

namespace ContradictionEngine

/-- The rule-table loop of `ContradictionEngine.detect`, before the final
sort: for each rule in table order, look up the two named signals, skip
the rule if either is absent, and otherwise collect `check_pair`. -/
def detect_unsorted (signals : List Signal) : List Contradiction :=
  CONTRADICTION_RULES.filterMap (fun r =>
    match signal_map signals r.name_a, signal_map signals r.name_b with
    | some sig_a, some sig_b => check_pair sig_a sig_b r.min_strength r.category r.resolution
    | _, _ => none)

/-- Model of `ContradictionEngine.detect`: find all contradictions and sort them
by severity (stable). -/
def detect (signals : List Signal) : List Contradiction :=
  sort_by_severity (detect_unsorted signals)

/-- The `bullish` partition of `score_overall`. -/
def bullish_signals (signals : List Signal) : List Signal :=
  signals.filter (fun s => decide (s.direction = "bullish" ∧ 0 < s.confidence))

/-- The `bearish` partition of `score_overall`. -/
def bearish_signals (signals : List Signal) : List Signal :=
  signals.filter (fun s => decide (s.direction = "bearish" ∧ 0 < s.confidence))

/-- The `neutral` partition of `score_overall`. -/
def neutral_signals (signals : List Signal) : List Signal :=
  signals.filter (fun s => decide (s.direction = "neutral" ∧ 0 < s.confidence))

/-- Model of `bull_weight = sum(s.strength * s.confidence for s in bullish)`. -/
def bull_weight (signals : List Signal) : ℚ :=
  ((bullish_signals signals).map (fun s => s.strength * s.confidence)).sum

/-- Model of `bear_weight = sum(s.strength * s.confidence for s in bearish)`. -/
def bear_weight (signals : List Signal) : ℚ :=
  ((bearish_signals signals).map (fun s => s.strength * s.confidence)).sum

/-- Model of `total_weight = bull_weight + bear_weight`. -/
def total_weight (signals : List Signal) : ℚ :=
  bull_weight signals + bear_weight signals

/-- The `consensus_direction` local of `score_overall` (the if/elif
chain, direction component). -/
def consensus_direction_raw (signals : List Signal) : String :=
  if total_weight signals = 0 then "neutral"
  else if bull_weight signals > bear_weight signals * (13/10) then "bullish"
  else if bear_weight signals > bull_weight signals * (13/10) then "bearish"
  else "mixed"

/-- The `consensus_strength` local of `score_overall` (the if/elif
chain, strength component, before the final two-decimal rounding). -/
def consensus_strength_raw (signals : List Signal) : ℚ :=
  if total_weight signals = 0 then 0
  else if bull_weight signals > bear_weight signals * (13/10) then
    bull_weight signals / (total_weight signals + 1/1000)
  else if bear_weight signals > bull_weight signals * (13/10) then
    bear_weight signals / (total_weight signals + 1/1000)
  else
    1 - |bull_weight signals - bear_weight signals| / (total_weight signals + 1/1000)

/-- Model of `high_count = sum(1 for c in contradictions if c.severity == "high")`. -/
def high_count (contradictions : List Contradiction) : ℕ :=
  (contradictions.filter (fun c => decide (c.severity = "high"))).length

/-- Model of `med_count = sum(1 for c in contradictions if c.severity == "medium")`. -/
def med_count (contradictions : List Contradiction) : ℕ :=
  (contradictions.filter (fun c => decide (c.severity = "medium"))).length

end ContradictionEngine

/-- Model of `_overall_severity`: highest severity present, or "none". -/
def overall_severity (contradictions : List Contradiction) : String :=
  if contradictions = [] then "none"
  else
    let severities := contradictions.map (fun c => c.severity)
    if "high" ∈ severities then "high"
    else if "medium" ∈ severities then "medium"
    else "low"

/-- Model of `_alpha_potential`: qualitative rating from contradiction counts. -/
def alpha_potential (total high medium : ℕ) : String :=
  if 2 ≤ high ∨ (1 ≤ high ∧ 2 ≤ medium) then "high"
  else if 1 ≤ high ∨ 2 ≤ medium ∨ 3 ≤ total then "medium"
  else if 1 ≤ total then "low"
  else "none"

/-- The record returned by `ContradictionEngine.score_overall`.  The
`signal_summary` per-signal echo map of the source (a dict quoting each
input signal verbatim) is omitted: no computation reads it. -/
structure ConsensusScore where
  consensus_direction : String
  consensus_strength : ℚ
  bullish_count : ℕ
  bearish_count : ℕ
  neutral_count : ℕ
  contradiction_count : ℕ
  contradiction_severity : String
  alpha_potential : String
  key_contradictions : List String
deriving DecidableEq

namespace ContradictionEngine

/-- Model of `ContradictionEngine.score_overall`: the overall consensus score from
signals and contradictions. -/
def score_overall (signals : List Signal) (contradictions : List Contradiction) :
    ConsensusScore where
  consensus_direction := consensus_direction_raw signals
  consensus_strength := round2 (consensus_strength_raw signals)
  bullish_count := (bullish_signals signals).length
  bearish_count := (bearish_signals signals).length
  neutral_count := (neutral_signals signals).length
  contradiction_count := contradictions.length
  contradiction_severity := overall_severity contradictions
  alpha_potential :=
    AlphaEngine.alpha_potential contradictions.length
      (high_count contradictions) (med_count contradictions)
  key_contradictions := (contradictions.take 3).map (fun c => c.description)

end ContradictionEngine

namespace Collectors

/-- Price/volume rows of the `history_30d` DataFrame (oldest first).
`closes` is the `Close` column (its length is the row count `len(df)`);
`volumes` is the `Volume` column, present when `has_volume` is true
(modelling `"Volume" in df.columns`). -/
structure PriceHistory where
  closes : List ℚ := []
  volumes : List ℚ := []
  has_volume : Bool := false
deriving DecidableEq

/-- Model of `yfinance_collector.StockData`: the aggregated stock-level
snapshot.  Fields that no embedded extractor reads (ticker, analyst
low/high/rating, upgrades, short interest, `pct_from_52w_high`, which is
recorded only as a diagnostic) are omitted.  `insider_transactions` keeps
only the text rendering `str(tx)` that the insider extractor searches. -/
structure StockData where
  current_price : ℚ := 0
  history_30d : Option PriceHistory := none
  ma_50 : ℚ := 0
  ma_200 : ℚ := 0
  rsi_14 : ℚ := 0
  analyst_target_mean : ℚ := 0
  analyst_count : ℕ := 0
  insider_transactions : List String := []
  insider_net_shares : ℤ := 0
  insiders_pct_held : ℚ := 0
  institutions_pct_held : ℚ := 0
  put_call_ratio_oi : ℚ := 0
  atm_call_iv : ℚ := 0
  atm_put_iv : ℚ := 0
  iv_skew : ℚ := 0
  has_next_earnings_date : Bool := false
  days_to_earnings : Option ℤ := none
  last_4_surprises : List ℚ := []
  pe_trailing : ℚ := 0
  pe_forward : ℚ := 0
  pb : ℚ := 0
  ev_ebitda : ℚ := 0
  beta : ℚ := 0
  week52_high : ℚ := 0
  week52_low : ℚ := 0
deriving DecidableEq

/-- Model of `macro_collector.MacroData` (the dict `sector_returns_1m` as
an association list with unique keys; `dollar_index` is read by no
extractor and omitted). -/
structure MacroData where
  vix : ℚ := 0
  vix_5d_change : ℚ := 0
  treasury_10y : ℚ := 0
  treasury_2y : ℚ := 0
  yield_spread_10y2y : ℚ := 0
  gold_price : ℚ := 0
  oil_price : ℚ := 0
  sector_returns_1m : List (String × ℚ) := []
  stock_sector : String := ""
  sector_vs_spy : ℚ := 0
deriving DecidableEq

/-- Model of `news_collector.NewsData` (the two news-item lists are kept
as their lengths: extractors only test them for emptiness and length). -/
structure NewsData where
  ticker_news_count : ℕ := 0
  macro_news_count : ℕ := 0
  ticker_sentiment_score : ℚ := 0
  macro_sentiment_score : ℚ := 0
  news_volume : ℕ := 0
  high_importance_count : ℕ := 0
deriving DecidableEq

end Collectors

open Collectors

/-- Pandas `series.iloc[-k]` on a list (0 when out of range; the source
only evaluates it under length guards). -/
def ilocNeg (l : List ℚ) (k : ℕ) : ℚ := l.getD (l.length - k) 0

/-- Pandas `series.iloc[-n:].mean()` on a list. -/
def tailMean (l : List ℚ) (n : ℕ) : ℚ := listMean (l.drop (l.length - n))

namespace TechnicalSignal

/-- Score contributions of `_score_rsi`. -/
def score_rsi (d : StockData) : List ℚ :=
  if d.rsi_14 ≤ 0 then []
  else if d.rsi_14 > 80 then [-(8/10)]
  else if d.rsi_14 > 70 then [-(5/10)]
  else if d.rsi_14 < 20 then [8/10]
  else if d.rsi_14 < 30 then [5/10]
  else if 45 ≤ d.rsi_14 ∧ d.rsi_14 ≤ 55 then [0]
  else if d.rsi_14 > 55 then [2/10]
  else [-(2/10)]

/-- Score contributions of `_score_moving_averages`. -/
def score_moving_averages (d : StockData) : List ℚ :=
  if d.current_price ≤ 0 then []
  else
    (if d.ma_50 > 0 then
      (let pct_vs_50 := (d.current_price - d.ma_50) / d.ma_50
       if pct_vs_50 > 1/10 then [4/10]
       else if pct_vs_50 > 0 then [2/10]
       else if pct_vs_50 > -(1/10) then [-(2/10)]
       else [-(4/10)])
     else []) ++
    (if d.ma_200 > 0 then
      (let pct_vs_200 := (d.current_price - d.ma_200) / d.ma_200
       if pct_vs_200 > 15/100 then [5/10]
       else if pct_vs_200 > 0 then [3/10]
       else if pct_vs_200 > -(15/100) then [-(3/10)]
       else [-(5/10)])
     else []) ++
    (if d.ma_50 > 0 ∧ d.ma_200 > 0 then
      (if d.ma_50 > d.ma_200 then [3/10] else [-(3/10)])
     else [])

/-- Score contributions of `_score_52w_position`. -/
def score_52w_position (d : StockData) : List ℚ :=
  if d.week52_high ≤ 0 ∨ d.week52_low ≤ 0 then []
  else if d.week52_high - d.week52_low ≤ 0 then []
  else
    let position := (d.current_price - d.week52_low) / (d.week52_high - d.week52_low)
    if position > 95/100 then [-(3/10)]
    else if position < 2/10 then [3/10]
    else []

/-- All collected sub-scores of the technical extractor, in call order. -/
def scores (d : StockData) : List ℚ :=
  score_rsi d ++ score_moving_averages d ++ score_52w_position d

/-- Model of `technical_signal._assess_confidence`. -/
def assess_confidence (d : StockData) : ℚ :=
  (match d.history_30d with
   | some h => if 20 ≤ h.closes.length then 4/10 else 0
   | none => 0) +
  (if d.rsi_14 > 0 then 2/10 else 0) +
  (if d.ma_50 > 0 then 2/10 else 0) +
  (if d.ma_200 > 0 then 2/10 else 0)

/-- Model of `technical_signal.extract`.  The detail suffix of
`_build_reasoning` (formatted indicator readouts) is abbreviated to the
direction tag: no computation in the core reads extractor reasoning
beyond echoing it verbatim into contradiction descriptions. -/
def extract (d : StockData) : Signal :=
  let ss := scores d
  if ss = [] then
    ⟨"technical", "neutral", 0, 0, "Insufficient technical data"⟩
  else
    let avg_score := listMean ss
    let direction :=
      if avg_score > 1/10 then "bullish"
      else if avg_score < -(1/10) then "bearish"
      else "neutral"
    ⟨"technical", direction, round2 (min |avg_score| 1),
      round2 (assess_confidence d), "Technical " ++ direction⟩

end TechnicalSignal

namespace ValuationSignal

/-- Score contributions of `_score_pe`. -/
def score_pe (d : StockData) : List ℚ :=
  let pe := if d.pe_forward > 0 then d.pe_forward else d.pe_trailing
  if pe ≤ 0 then []
  else
    (if d.pe_forward > 0 ∧ d.pe_trailing > 0 then
      (let pe_contraction := d.pe_forward / d.pe_trailing
       if pe_contraction < 7/10 then [4/10]
       else if pe_contraction < 9/10 then [2/10]
       else [])
     else []) ++
    (if pe > 60 then [-(6/10)]
     else if pe > 40 then [-(3/10)]
     else if pe > 25 then [0]
     else if pe > 15 then [2/10]
     else [4/10])

/-- Score contributions of `_score_analyst_target`. -/
def score_analyst_target (d : StockData) : List ℚ :=
  if d.analyst_target_mean ≤ 0 ∨ d.current_price ≤ 0 then []
  else
    let upside := (d.analyst_target_mean - d.current_price) / d.current_price
    let weight : ℚ := if 10 ≤ d.analyst_count then 1 else 6/10
    if upside > 3/10 then [7/10 * weight]
    else if upside > 15/100 then [4/10 * weight]
    else if upside > 5/100 then [2/10 * weight]
    else if upside > -(1/10) then [0]
    else if upside > -(2/10) then [-(3/10) * weight]
    else [-(6/10) * weight]

/-- Score contributions of `_score_pb`. -/
def score_pb (d : StockData) : List ℚ :=
  if d.pb ≤ 0 then []
  else if d.pb > 15 then [-(3/10)]
  else if d.pb > 8 then [-(1/10)]
  else if d.pb < 3/2 then [3/10]
  else []

/-- Score contributions of `_score_ev_ebitda`. -/
def score_ev_ebitda (d : StockData) : List ℚ :=
  if d.ev_ebitda ≤ 0 then []
  else if d.ev_ebitda > 30 then [-(3/10)]
  else if d.ev_ebitda > 20 then [-(1/10)]
  else if d.ev_ebitda < 10 then [3/10]
  else []

/-- All collected sub-scores of the valuation extractor, in call order. -/
def scores (d : StockData) : List ℚ :=
  score_pe d ++ score_analyst_target d ++ score_pb d ++ score_ev_ebitda d

/-- Model of `valuation_signal._assess_confidence`. -/
def assess_confidence (d : StockData) : ℚ :=
  (if d.pe_trailing > 0 ∨ d.pe_forward > 0 then 3/10 else 0) +
  (if d.analyst_target_mean > 0 then 3/10 else 0) +
  (if d.pb > 0 then 2/10 else 0) +
  (if d.ev_ebitda > 0 then 2/10 else 0)

/-- Model of `valuation_signal.extract` (reasoning abbreviated as in
`TechnicalSignal.extract`). -/
def extract (d : StockData) : Signal :=
  let ss := scores d
  if ss = [] then
    ⟨"valuation", "neutral", 0, 0, "Insufficient valuation data"⟩
  else
    let avg_score := listMean ss
    let direction :=
      if avg_score > 1/10 then "bullish"
      else if avg_score < -(1/10) then "bearish"
      else "neutral"
    ⟨"valuation", direction, round2 (min |avg_score| 1),
      round2 (assess_confidence d), "Valuation " ++ direction⟩

end ValuationSignal

namespace InsiderSignal

/-- Score contributions of `_score_net_shares`. -/
def score_net_shares (d : StockData) : List ℚ :=
  if d.insider_net_shares = 0 ∧ d.insider_transactions = [] then []
  else if d.insider_net_shares > 0 then [7/10]
  else if d.insider_net_shares < 0 then
    let tx_count : ℤ :=
      if d.insider_transactions ≠ [] then (d.insider_transactions.length : ℤ) else 1
    let sell_intensity :=
      min (((|d.insider_net_shares| : ℤ) : ℚ) / ((max tx_count 1 : ℤ) : ℚ) / 10000) 1
    [-(3/10) - (4/10) * sell_intensity]
  else []

/-- Buy test of `_score_transaction_pattern` on one transaction text. -/
def is_buy_tx (tx : String) : Bool :=
  strContainsSub (lowerStr tx) "purchase" || strContainsSub (lowerStr tx) "buy"

/-- Sell test of `_score_transaction_pattern` (the `elif` branch: only
transactions not already counted as buys). -/
def is_sell_tx (tx : String) : Bool :=
  !is_buy_tx tx && (strContainsSub (lowerStr tx) "sale" || strContainsSub (lowerStr tx) "sell")

/-- Score contributions of `_score_transaction_pattern`. -/
def score_transaction_pattern (d : StockData) : List ℚ :=
  if d.insider_transactions = [] then []
  else
    let buys := (d.insider_transactions.filter is_buy_tx).length
    let sells := (d.insider_transactions.filter is_sell_tx).length
    let total := buys + sells
    if total = 0 then []
    else
      let buy_ratio := (buys : ℚ) / (total : ℚ)
      if buy_ratio > 6/10 then [6/10]
      else if buy_ratio > 3/10 then [1/10]
      else if buy_ratio < 1/10 ∧ 3 ≤ sells then [-(7/10)]
      else if buy_ratio < 2/10 then [-(4/10)]
      else []

/-- Score contributions of `_score_institutional_ownership`. -/
def score_institutional_ownership (d : StockData) : List ℚ :=
  if d.insiders_pct_held > 0 then
    (if d.insiders_pct_held > 1/10 then [2/10] else [])
  else []

/-- All collected sub-scores of the insider extractor, in call order. -/
def scores (d : StockData) : List ℚ :=
  score_net_shares d ++ score_transaction_pattern d ++ score_institutional_ownership d

/-- Model of `insider_signal._assess_confidence`. -/
def assess_confidence (d : StockData) : ℚ :=
  min ((if d.insider_transactions ≠ [] then
          5/10 + (if 5 ≤ d.insider_transactions.length then 2/10 else 0)
        else 0) +
       (if d.insiders_pct_held > 0 then 15/100 else 0) +
       (if d.institutions_pct_held > 0 then 15/100 else 0)) 1

/-- Model of `insider_signal.extract` (reasoning abbreviated). -/
def extract (d : StockData) : Signal :=
  let ss := scores d
  if ss = [] then
    ⟨"insider_activity", "neutral", 0, 0, "No insider transaction data available"⟩
  else
    let avg_score := listMean ss
    let direction :=
      if avg_score > 1/10 then "bullish"
      else if avg_score < -(1/10) then "bearish"
      else "neutral"
    ⟨"insider_activity", direction, round2 (min |avg_score| 1),
      round2 (assess_confidence d), "Insider " ++ direction⟩

end InsiderSignal

namespace EarningsSignal

/-- Score contributions of `_score_surprise_history`
(`last_4_surprises` is kept as the list of `surprise_pct` values). -/
def score_surprise_history (d : StockData) : List ℚ :=
  if d.last_4_surprises = [] then []
  else
    let beats := (d.last_4_surprises.filter (fun pct => decide (pct > 0))).length
    let misses := (d.last_4_surprises.filter (fun pct => decide (pct < 0))).length
    if beats = d.last_4_surprises.length ∧ 3 ≤ beats then [6/10]
    else if 3 ≤ beats then [4/10]
    else if 3 ≤ misses then [-(5/10)]
    else if misses < beats then [2/10]
    else if beats < misses then [-(2/10)]
    else []

/-- Score contributions of `_score_earnings_proximity` (only the
`days <= 3` branch appends a neutral 0.0 score; the other event-risk
branches record diagnostics only). -/
def score_earnings_proximity (d : StockData) : List ℚ :=
  match d.days_to_earnings with
  | none => []
  | some days => if days ≤ 3 then [0] else []

/-- All collected sub-scores of the earnings extractor, in call order. -/
def scores (d : StockData) : List ℚ :=
  score_surprise_history d ++ score_earnings_proximity d

/-- Model of `earnings_signal._assess_confidence`. -/
def assess_confidence (d : StockData) : ℚ :=
  min ((if d.last_4_surprises ≠ [] then
          3/10 + min ((d.last_4_surprises.length : ℚ) * (1/10)) (4/10)
        else 0) +
       (if d.has_next_earnings_date then 3/10 else 0)) 1

/-- Model of `earnings_signal.extract` (reasoning abbreviated). -/
def extract (d : StockData) : Signal :=
  let ss := scores d
  if ss = [] then
    ⟨"earnings", "neutral", 0, 0, "No earnings data available"⟩
  else
    let avg_score := listMean ss
    let direction :=
      if avg_score > 1/10 then "bullish"
      else if avg_score < -(1/10) then "bearish"
      else "neutral"
    ⟨"earnings", direction, round2 (min |avg_score| 1),
      round2 (assess_confidence d), "Earnings " ++ direction⟩

end EarningsSignal

namespace OptionsSignal

/-- Score contributions of `_score_put_call_ratio`. -/
def score_put_call_ratio (d : StockData) : List ℚ :=
  if d.put_call_ratio_oi ≤ 0 then []
  else
    let pcr := d.put_call_ratio_oi
    if pcr < 1/2 then [6/10]
    else if pcr < 7/10 then [3/10]
    else if pcr < 1 then [0]
    else if pcr < 13/10 then [-(3/10)]
    else [-(6/10)]

/-- Score contributions of `_score_iv_skew`. -/
def score_iv_skew (d : StockData) : List ℚ :=
  if d.iv_skew = 0 ∧ d.atm_call_iv ≤ 0 then []
  else if d.iv_skew > 1/10 then [-(5/10)]
  else if d.iv_skew > 3/100 then [-(2/10)]
  else if d.iv_skew < -(5/100) then [3/10]
  else [0]

/-- All collected sub-scores of the options extractor, in call order
(`_score_iv_level` records diagnostics only and never appends a score). -/
def scores (d : StockData) : List ℚ :=
  score_put_call_ratio d ++ score_iv_skew d

/-- Model of `options_signal._assess_confidence`. -/
def assess_confidence (d : StockData) : ℚ :=
  (if d.put_call_ratio_oi > 0 then 4/10 else 0) +
  (if d.atm_call_iv > 0 then 3/10 else 0) +
  (if d.atm_put_iv > 0 then 3/10 else 0)

/-- Model of `options_signal.extract` (reasoning abbreviated). -/
def extract (d : StockData) : Signal :=
  let ss := scores d
  if ss = [] then
    ⟨"options", "neutral", 0, 0, "No options data available"⟩
  else
    let avg_score := listMean ss
    let direction :=
      if avg_score > 1/10 then "bullish"
      else if avg_score < -(1/10) then "bearish"
      else "neutral"
    ⟨"options", direction, round2 (min |avg_score| 1),
      round2 (assess_confidence d), "Options " ++ direction⟩

end OptionsSignal

namespace MomentumSignal

/-- Score contributions of `_score_price_trend`. -/
def score_price_trend (d : StockData) : List ℚ :=
  match d.history_30d with
  | none => []
  | some h =>
    if h.closes.length < 5 then []
    else
      (let ret_5d := (ilocNeg h.closes 1 - ilocNeg h.closes 5) / ilocNeg h.closes 5
       if ret_5d > 5/100 then [5/10]
       else if ret_5d > 2/100 then [3/10]
       else if ret_5d > -(2/100) then [0]
       else if ret_5d > -(5/100) then [-(3/10)]
       else [-(5/10)]) ++
      (if 20 ≤ h.closes.length then
        (let ret_20d := (ilocNeg h.closes 1 - ilocNeg h.closes 20) / ilocNeg h.closes 20
         if ret_20d > 1/10 then [6/10]
         else if ret_20d > 3/100 then [3/10]
         else if ret_20d > -(3/100) then [0]
         else if ret_20d > -(1/10) then [-(3/10)]
         else [-(6/10)])
       else [])

/-- Score contributions of `_score_volume_confirmation`. -/
def score_volume_confirmation (d : StockData) : List ℚ :=
  match d.history_30d with
  | none => []
  | some h =>
    if h.closes.length < 20 then []
    else if !h.has_volume then []
    else
      let avg_vol_20d := tailMean h.volumes 20
      let recent_vol := tailMean h.volumes 5
      if avg_vol_20d ≤ 0 then []
      else
        let vol_ratio := recent_vol / avg_vol_20d
        let ret_5d := (ilocNeg h.closes 1 - ilocNeg h.closes 5) / ilocNeg h.closes 5
        if ret_5d > 1/100 ∧ vol_ratio > 13/10 then [4/10]
        else if ret_5d < -(1/100) ∧ vol_ratio > 13/10 then [-(4/10)]
        else if ret_5d > 1/100 ∧ vol_ratio < 7/10 then [-(1/10)]
        else if ret_5d < -(1/100) ∧ vol_ratio < 7/10 then [1/10]
        else []

/-- All collected sub-scores of the momentum extractor, in call order
(`_score_beta_momentum` records a diagnostic only, never a score). -/
def scores (d : StockData) : List ℚ :=
  score_price_trend d ++ score_volume_confirmation d

/-- Model of `momentum_signal._assess_confidence`. -/
def assess_confidence (d : StockData) : ℚ :=
  match d.history_30d with
  | none => 0
  | some h =>
    if h.closes.length < 10 then 0
    else
      min ((4/10) + (if 20 ≤ h.closes.length then 3/10 else 0) +
           (if h.has_volume then 3/10 else 0)) 1

/-- Model of `momentum_signal.extract` (reasoning abbreviated). -/
def extract (d : StockData) : Signal :=
  let ss := scores d
  if ss = [] then
    ⟨"momentum", "neutral", 0, 0, "Insufficient momentum data"⟩
  else
    let avg_score := listMean ss
    let direction :=
      if avg_score > 1/10 then "bullish"
      else if avg_score < -(1/10) then "bearish"
      else "neutral"
    ⟨"momentum", direction, round2 (min |avg_score| 1),
      round2 (assess_confidence d), "Momentum " ++ direction⟩

end MomentumSignal

namespace MacroSignal

/-- Score contributions of `_score_vix` (level score, then trend score). -/
def score_vix (m : MacroData) : List ℚ :=
  if m.vix ≤ 0 then []
  else
    ((if m.vix > 30 then [-(6/10)]
      else if m.vix > 20 then [-(2/10)]
      else if m.vix < 13 then [3/10]
      else []) : List ℚ) ++
    (if m.vix_5d_change > 20 then [-(4/10)]
     else if m.vix_5d_change < -15 then [3/10]
     else [])

/-- Score contributions of `_score_yield_curve`. -/
def score_yield_curve (m : MacroData) : List ℚ :=
  if m.treasury_10y ≤ 0 then []
  else if m.treasury_2y > 0 then
    (let spread := m.yield_spread_10y2y
     if spread < -(1/2) then [-(5/10)]
     else if spread < 0 then [-(3/10)]
     else if spread > 1 then [2/10]
     else [])
  else []

/-- Model of `macro_signal._avg_return` on the association-list dict. -/
def avg_return (returns : List (String × ℚ)) (tickers : List String) : Option ℚ :=
  let vals := tickers.filterMap (fun t => returns.lookup t)
  if vals = [] then none else some (vals.sum / (vals.length : ℚ))

/-- Score contributions of `_score_sector_rotation`. -/
def score_sector_rotation (m : MacroData) : List ℚ :=
  if m.sector_returns_1m = [] then []
  else
    ((if m.stock_sector ≠ "" ∧ m.sector_vs_spy ≠ 0 then
       (if m.sector_vs_spy > 3 then [4/10]
        else if m.sector_vs_spy > 1 then [2/10]
        else if m.sector_vs_spy < -3 then [-(4/10)]
        else if m.sector_vs_spy < -1 then [-(2/10)]
        else [])
      else []) : List ℚ) ++
    (match avg_return m.sector_returns_1m ["XLU", "XLP", "XLV"],
           avg_return m.sector_returns_1m ["XLK", "XLY", "XLI", "XLF"] with
     | some def_avg, some cyc_avg =>
       let rotation := cyc_avg - def_avg
       if rotation > 3 then [3/10]
       else if rotation < -3 then [-(3/10)]
       else []
     | _, _ => [])

/-- All collected sub-scores of the macro extractor, in call order. -/
def scores (m : MacroData) : List ℚ :=
  score_vix m ++ score_yield_curve m ++ score_sector_rotation m

/-- Model of `macro_signal._assess_confidence`. -/
def assess_confidence (m : MacroData) : ℚ :=
  min ((if m.vix > 0 then 3/10 else 0) +
       (if m.treasury_10y > 0 then 2/10 else 0) +
       (if m.sector_returns_1m ≠ [] then 3/10 else 0) +
       (if m.gold_price > 0 then 1/10 else 0) +
       (if m.oil_price > 0 then 1/10 else 0)) 1

/-- Model of `macro_signal.extract` (its `StockData` argument is unused
by the source beyond the signature; reasoning abbreviated). -/
def extract (_d : StockData) (m : MacroData) : Signal :=
  let ss := scores m
  if ss = [] then
    ⟨"macro", "neutral", 0, 0, "Insufficient macro data"⟩
  else
    let avg_score := listMean ss
    let direction :=
      if avg_score > 1/10 then "bullish"
      else if avg_score < -(1/10) then "bearish"
      else "neutral"
    ⟨"macro", direction, round2 (min |avg_score| 1),
      round2 (assess_confidence m), "Macro " ++ direction⟩

end MacroSignal

namespace NewsSignal

/-- Score contributions of `_score_ticker_sentiment`. -/
def score_ticker_sentiment (n : NewsData) : List ℚ :=
  let ts := n.ticker_sentiment_score
  if ts > 3/10 then [6/10]
  else if ts > 1/10 then [3/10]
  else if ts < -(3/10) then [-(6/10)]
  else if ts < -(1/10) then [-(3/10)]
  else []

/-- Score contributions of `_score_macro_sentiment`. -/
def score_macro_sentiment (n : NewsData) : List ℚ :=
  let ms := n.macro_sentiment_score
  let weight : ℚ := if n.high_importance_count > 0 then 2 else 1
  if ms > 3/10 then [min (1/2 * weight) 1]
  else if ms > 1/10 then [min (1/4 * weight) 1]
  else if ms < -(3/10) then [max (-(1/2) * weight) (-1)]
  else if ms < -(1/10) then [max (-(1/4) * weight) (-1)]
  else []

/-- Score contributions of `_score_volume_anomaly`. -/
def score_volume_anomaly (n : NewsData) : List ℚ :=
  if n.news_volume ≤ 50 then []
  else
    let combined := n.ticker_sentiment_score + n.macro_sentiment_score
    if combined > 0 then [3/10]
    else if combined < 0 then [-(3/10)]
    else []

/-- All collected sub-scores of the news extractor, in call order. -/
def scores (n : NewsData) : List ℚ :=
  score_ticker_sentiment n ++ score_macro_sentiment n ++ score_volume_anomaly n

/-- Model of `news_signal._assess_confidence`. -/
def assess_confidence (n : NewsData) : ℚ :=
  if n.news_volume = 0 then 0
  else
    min ((4/10) + (if 10 ≤ n.news_volume then 2/10 else 0) +
         (if n.high_importance_count > 0 then 2/10 else 0) +
         (if n.ticker_news_count ≠ 0 ∧ n.macro_news_count ≠ 0 then 2/10 else 0)) 1

/-- Model of `news_signal.extract` (reasoning abbreviated). -/
def extract (n : NewsData) : Signal :=
  let ss := scores n
  if ss = [] then
    ⟨"news_sentiment", "neutral", 0, 0, "No news data available (daemon may not be running)"⟩
  else
    let avg_score := listMean ss
    let direction :=
      if avg_score > 1/10 then "bullish"
      else if avg_score < -(1/10) then "bearish"
      else "neutral"
    ⟨"news_sentiment", direction, round2 (min |avg_score| 1),
      round2 (assess_confidence n), "News " ++ direction⟩

end NewsSignal

namespace Runner

/-- The fixed eight category names, in the order of the extractor list of
`runner._extract_all_signals`. -/
def extractor_names : List String :=
  ["technical", "valuation", "insider_activity", "earnings",
   "options", "momentum", "macro", "news_sentiment"]

/-- One iteration of the try/except loop of `_extract_all_signals`: a
successful extractor result is appended as-is; a raised exception is
caught and replaced by the neutral zero-strength zero-confidence fallback
carrying the failure reason.  The fallible extractor invocation is
modelled as `run name : Except String Signal`. -/
def run_one (run : String → Except String Signal) (name : String) : Signal :=
  match run name with
  | Except.ok s => s
  | Except.error exc =>
    ⟨name, "neutral", 0, 0, "Extraction failed: " ++ exc⟩

/-- Model of `runner._extract_all_signals`: run the eight extractors in
fixed order, substituting the neutral fallback for any that raises.  The
function is total: no exception propagates to the caller. -/
def extract_all_signals (run : String → Except String Signal) : List Signal :=
  extractor_names.map (run_one run)

end Runner

namespace ContinuousMonitor

/-- The fixed first message of `_interpret_idea` (alpha high, severity
high). -/
def msg_turning_point : String :=
  "INTERPRETATION: High-conviction contradictions detected. " ++
  "Smart money divergence suggests a potential turning point. " ++
  "Monitor closely for resolution signal before taking position."

/-- The fixed second message of `_interpret_idea` (alpha medium). -/
def msg_wait_catalyst : String :=
  "INTERPRETATION: Moderate contradictions detected. " ++
  "Signals are split — wait for a catalyst (earnings, macro event) " ++
  "to break the tie before entering."

/-- The direction-dependent trend-following message of
`_interpret_idea`. -/
def msg_trend (direction : String) : String :=
  "INTERPRETATION: Strong " ++ direction ++ " consensus with no major " ++
  "contradictions. Trend-following setup — consider " ++
  (if direction = "bullish" then "long" else "short") ++ " exposure."

/-- The fixed fallback message of `_interpret_idea`. -/
def msg_no_edge : String :=
  "INTERPRETATION: No clear edge. Wait for stronger signal alignment."

/-- Model of `_interpret_idea`: brief actionable interpretation of a consensus
score. -/
def interpret_idea (score : ConsensusScore) : String :=
  if score.alpha_potential = "high" ∧ score.contradiction_severity = "high" then
    msg_turning_point
  else if score.alpha_potential = "medium" then
    msg_wait_catalyst
  else if (score.consensus_direction = "bullish" ∨ score.consensus_direction = "bearish") ∧
      score.consensus_strength > 7/10 then
    msg_trend score.consensus_direction
  else
    msg_no_edge

end ContinuousMonitor

/-- Default signal (needed only for `List.getD` indexing in statements). -/
instance : Inhabited Signal := ⟨⟨"", "neutral", 0, 0, ""⟩⟩

/-- The aggregation rule shared verbatim by all eight extractors:
bullish iff the mean sub-score exceeds +0.1, bearish iff below -0.1,
neutral otherwise. -/
def aggregate_direction (avg_score : ℚ) : String :=
  if avg_score > 1/10 then "bullish"
  else if avg_score < -(1/10) then "bearish"
  else "neutral"

/-- Concrete input for the worked example of C1:
`bull_weight = 0.9`, `bear_weight = 0.2`. -/
def C1_example_signals : List Signal :=
  [⟨"technical", "bullish", 9/10, 1, ""⟩, ⟨"valuation", "bearish", 1/5, 1, ""⟩]

/-- Concrete input used by the C2 witness. -/
def C2_wit_signals : List Signal :=
  [⟨"insider_activity", "bullish", 1/2, 1/2, ""⟩,
   ⟨"valuation", "bearish", 1/2, 1/2, ""⟩]

/-- The single contradiction detected on `C2_wit_signals`. -/
def C2_wit_contra : Contradiction :=
  ⟨⟨"insider_activity", "bullish", 1/2, 1/2, ""⟩,
   ⟨"valuation", "bearish", 1/2, 1/2, ""⟩,
   "medium", "smart_money_divergence",
   "INSIDER_ACTIVITY says bullish () but VALUATION says bearish ()",
   "Insider activity is more predictive than analyst ratings"⟩

/-- The concrete eight-signal scenario of C3: insider_activity bullish
0.6/0.5, valuation bearish 0.5/0.6, all others neutral 0/0. -/
def C3_scenario : List Signal :=
  [⟨"technical", "neutral", 0, 0, ""⟩,
   ⟨"valuation", "bearish", 1/2, 6/10, ""⟩,
   ⟨"insider_activity", "bullish", 6/10, 1/2, ""⟩,
   ⟨"earnings", "neutral", 0, 0, ""⟩,
   ⟨"options", "neutral", 0, 0, ""⟩,
   ⟨"momentum", "neutral", 0, 0, ""⟩,
   ⟨"macro", "neutral", 0, 0, ""⟩,
   ⟨"news_sentiment", "neutral", 0, 0, ""⟩]

/-- Concrete contradiction list with two high severities (C4 witness). -/
def C4_example_contradictions : List Contradiction :=
  [⟨⟨"a", "bullish", 1, 1, ""⟩, ⟨"b", "bearish", 1, 1, ""⟩, "high", "x", "", ""⟩,
   ⟨⟨"c", "bullish", 1, 1, ""⟩, ⟨"d", "bearish", 1, 1, ""⟩, "high", "y", "", ""⟩,
   ⟨⟨"e", "bullish", 1, 1, ""⟩, ⟨"f", "bearish", 1, 1, ""⟩, "low", "z", "", ""⟩]

/-- Technical snapshot in which ONLY the 52-week range (and price) is
present: no history, no RSI, no moving averages.  Confidence is 0, yet
the 52-week sub-score fires. -/
def C5_tech_input : Collectors.StockData :=
  { current_price := 51, week52_high := 100, week52_low := 50 }

/-- Momentum snapshot with a 6-row price history (between 5 and 9 rows):
confidence is 0 (fewer than 10 rows), yet the 5-day-return sub-score
fires. -/
def C5_mom_input : Collectors.StockData :=
  { history_30d := some { closes := [100, 100, 100, 100, 100, 110] } }

/-- Technical snapshot whose three sub-scores have mean 7/30, a value
that is NOT representable in two decimals (C6 counterexample input). -/
def C6_cx_input : Collectors.StockData :=
  { current_price := 51, rsi_14 := 60, ma_50 := 50,
    week52_high := 100, week52_low := 50 }

/-- Stock snapshot on which all six stock-based extractors collect at
least one sub-score (C6 witness). -/
def C6_wit_stock : Collectors.StockData :=
  { rsi_14 := 50, pe_trailing := 10, insider_net_shares := 100,
    last_4_surprises := [1], put_call_ratio_oi := 8/10,
    history_30d := some { closes := [100, 100, 100, 100, 100] } }

/-- Macro snapshot with a VIX reading (C6 witness). -/
def C6_wit_macro : Collectors.MacroData := { vix := 25 }

/-- News snapshot with a strong ticker sentiment (C6 witness). -/
def C6_wit_news : Collectors.NewsData :=
  { ticker_sentiment_score := 1/2, news_volume := 5 }

/-- Extractor-outcome assignment for the C8 witness: the momentum
extractor raises, all others return a well-named neutral signal. -/
def C8_wit_run : String → Except String Signal := fun name =>
  if name = "momentum" then Except.error "boom"
  else Except.ok ⟨name, "neutral", 0, 0, ""⟩

/-- Concrete input for the C10 witness (mixed branch: equal weights). -/
def C10_example_signals : List Signal :=
  [⟨"technical", "bullish", 1/2, 1, ""⟩, ⟨"valuation", "bearish", 1/2, 1, ""⟩]

end AlphaEngine

namespace AlphaEngine

/-! ## Helper lemmas -/

theorem round2_zero : round2 0 = 0 := by
  simp [round2]

theorem round2_nonneg {x : ℚ} (h : 0 ≤ x) : 0 ≤ round2 x := by
  unfold round2
  have hf : (0 : ℤ) ≤ round (x * 100) := by
    rw [round_eq]
    exact Int.le_floor.mpr (by push_cast; linarith)
  positivity

theorem round2_le_one {x : ℚ} (h : x ≤ 1) : round2 x ≤ 1 := by
  unfold round2
  rw [round_eq]
  have hle : ⌊x * 100 + 1 / 2⌋ ≤ ⌊(201 : ℚ) / 2⌋ := Int.floor_le_floor (by linarith)
  have h201 : ⌊(201 : ℚ) / 2⌋ = 100 := by
    rw [Int.floor_eq_iff]
    norm_num
  rw [div_le_one (by norm_num)]
  exact_mod_cast h201 ▸ hle

theorem bull_weight_nonneg (signals : List Signal)
    (hpos : ∀ s ∈ signals, 0 ≤ s.strength) :
    0 ≤ ContradictionEngine.bull_weight signals := by
  apply List.sum_nonneg
  intro x hx
  simp only [ContradictionEngine.bull_weight, List.mem_map] at hx
  obtain ⟨s, hs, rfl⟩ := hx
  have hmem : s ∈ signals ∧ (s.direction = "bullish" ∧ 0 < s.confidence) := by
    simpa [ContradictionEngine.bullish_signals, List.mem_filter,
      decide_eq_true_eq] using hs
  exact mul_nonneg (hpos s hmem.1) (le_of_lt hmem.2.2)

theorem bear_weight_nonneg (signals : List Signal)
    (hpos : ∀ s ∈ signals, 0 ≤ s.strength) :
    0 ≤ ContradictionEngine.bear_weight signals := by
  apply List.sum_nonneg
  intro x hx
  simp only [ContradictionEngine.bear_weight, List.mem_map] at hx
  obtain ⟨s, hs, rfl⟩ := hx
  have hmem : s ∈ signals ∧ (s.direction = "bearish" ∧ 0 < s.confidence) := by
    simpa [ContradictionEngine.bearish_signals, List.mem_filter,
      decide_eq_true_eq] using hs
  exact mul_nonneg (hpos s hmem.1) (le_of_lt hmem.2.2)

end AlphaEngine

namespace AlphaEngine

theorem mem_insert_by_severity (x c : Contradiction) (l : List Contradiction) :
    x ∈ insert_by_severity c l ↔ x = c ∨ x ∈ l := by
  induction l with
  | nil => simp [insert_by_severity]
  | cons d ds ih =>
    unfold insert_by_severity
    split_ifs with h
    · simp only [List.mem_cons, ih]
      tauto
    · simp only [List.mem_cons]

theorem mem_sort_fold (l : List Contradiction) :
    ∀ (acc : List Contradiction) (x : Contradiction),
      x ∈ l.foldl (fun acc c => insert_by_severity c acc) acc ↔ x ∈ acc ∨ x ∈ l := by
  induction l with
  | nil => intro acc x; simp
  | cons d ds ih =>
    intro acc x
    simp only [List.foldl_cons, ih, mem_insert_by_severity, List.mem_cons]
    tauto

theorem mem_sort_by_severity (x : Contradiction) (l : List Contradiction) :
    x ∈ sort_by_severity l ↔ x ∈ l := by
  unfold sort_by_severity
  rw [mem_sort_fold]
  simp

theorem check_pair_eq_some {sig_a sig_b : Signal} {m : ℚ} {cat res : String}
    {c : Contradiction} (h : check_pair sig_a sig_b m cat res = some c) :
    c.signal_a = sig_a ∧ c.signal_b = sig_b ∧ c.category = cat ∧
    sig_a.direction ≠ "neutral" ∧ sig_b.direction ≠ "neutral" ∧
    sig_a.direction ≠ sig_b.direction ∧
    m ≤ sig_a.strength ∧ m ≤ sig_b.strength ∧
    ¬(sig_a.confidence < 1/5 ∧ sig_b.confidence < 1/5) ∧
    c.severity =
      classify_severity ((sig_a.strength + sig_b.strength) / 2)
        sig_a.confidence sig_b.confidence := by
  unfold check_pair at h
  split_ifs at h with h1 h2 h3 h4
  obtain rfl := Option.some_injective _ h.symm
  push_neg at h1 h3
  exact ⟨rfl, rfl, rfl, h1.1, h1.2, h2, h3.1, h3.2, h4, rfl⟩

theorem classify_severity_mem (cs ca cb : ℚ) :
    classify_severity cs ca cb = "high" ∨ classify_severity cs ca cb = "medium" ∨
    classify_severity cs ca cb = "low" := by
  simp only [classify_severity]
  split_ifs <;> simp

theorem detect_unsorted_mem {signals : List Signal} {c : Contradiction}
    (h : c ∈ ContradictionEngine.detect_unsorted signals) :
    ∃ r ∈ CONTRADICTION_RULES, ∃ sig_a sig_b,
      signal_map signals r.name_a = some sig_a ∧
      signal_map signals r.name_b = some sig_b ∧
      check_pair sig_a sig_b r.min_strength r.category r.resolution = some c := by
  unfold ContradictionEngine.detect_unsorted at h
  rw [List.mem_filterMap] at h
  obtain ⟨r, hr, hsome⟩ := h
  refine ⟨r, hr, ?_⟩
  cases ha : signal_map signals r.name_a with
  | none => rw [ha] at hsome; simp at hsome
  | some sig_a =>
    cases hb : signal_map signals r.name_b with
    | none => rw [ha, hb] at hsome; simp at hsome
    | some sig_b =>
      rw [ha, hb] at hsome
      exact ⟨sig_a, sig_b, rfl, rfl, hsome⟩

theorem detect_unsorted_severity_mem {signals : List Signal} {c : Contradiction}
    (h : c ∈ ContradictionEngine.detect_unsorted signals) :
    c.severity = "high" ∨ c.severity = "medium" ∨ c.severity = "low" := by
  obtain ⟨r, -, sig_a, sig_b, -, -, hcp⟩ := detect_unsorted_mem h
  have hs := (check_pair_eq_some hcp).2.2.2.2.2.2.2.2.2
  rw [hs]
  exact classify_severity_mem _ _ _

end AlphaEngine

namespace AlphaEngine

theorem insert_all_le (c : Contradiction) (l : List Contradiction)
    (h : ∀ d ∈ l, severity_rank d.severity ≤ severity_rank c.severity) :
    insert_by_severity c l = l ++ [c] := by
  induction l with
  | nil => rfl
  | cons d ds ih =>
    unfold insert_by_severity
    rw [if_pos (h d (List.mem_cons_self d ds))]
    rw [ih (fun e he => h e (List.mem_cons_of_mem d he))]
    rfl

theorem insert_split (c : Contradiction) (l₁ l₂ : List Contradiction)
    (h₁ : ∀ d ∈ l₁, severity_rank d.severity ≤ severity_rank c.severity)
    (h₂ : ∀ d ∈ l₂, severity_rank c.severity < severity_rank d.severity) :
    insert_by_severity c (l₁ ++ l₂) = l₁ ++ c :: l₂ := by
  induction l₁ with
  | nil =>
    simp only [List.nil_append]
    cases l₂ with
    | nil => rfl
    | cons d ds =>
      unfold insert_by_severity
      rw [if_neg (not_le.mpr (h₂ d (List.mem_cons_self d ds)))]
  | cons d ds ih =>
    simp only [List.cons_append]
    unfold insert_by_severity
    rw [if_pos (h₁ d (List.mem_cons_self d ds))]
    rw [ih (fun e he => h₁ e (List.mem_cons_of_mem d he))]

/-- Stability of the severity sort: for a list whose severities are among
the three legal values, the sorted output is exactly the high elements in
original order, then the medium ones, then the low ones. -/
theorem sort_by_severity_eq_buckets (l : List Contradiction)
    (hsev : ∀ c ∈ l, c.severity = "high" ∨ c.severity = "medium" ∨ c.severity = "low") :
    sort_by_severity l =
      l.filter (fun c => decide (c.severity = "high")) ++
      l.filter (fun c => decide (c.severity = "medium")) ++
      l.filter (fun c => decide (c.severity = "low")) := by
  induction l using List.reverseRecOn with
  | nil => rfl
  | append_singleton l a ih =>
    have hl : ∀ c ∈ l, c.severity = "high" ∨ c.severity = "medium" ∨ c.severity = "low" :=
      fun c hc => hsev c (List.mem_append_left _ hc)
    have ha : a.severity = "high" ∨ a.severity = "medium" ∨ a.severity = "low" :=
      hsev a (List.mem_append_right _ (List.mem_cons_self a []))
    have hstep : sort_by_severity (l ++ [a]) = insert_by_severity a (sort_by_severity l) := by
      unfold sort_by_severity
      rw [List.foldl_append]
      rfl
    have hmemH : ∀ d ∈ l.filter (fun c => decide (c.severity = "high")),
        severity_rank d.severity = 0 := by
      intro d hd
      have := (List.mem_filter.mp hd).2
      simp only [decide_eq_true_eq] at this
      simp [severity_rank, this]
    have hmemM : ∀ d ∈ l.filter (fun c => decide (c.severity = "medium")),
        severity_rank d.severity = 1 := by
      intro d hd
      have := (List.mem_filter.mp hd).2
      simp only [decide_eq_true_eq] at this
      simp [severity_rank, this]
    have hmemL : ∀ d ∈ l.filter (fun c => decide (c.severity = "low")),
        severity_rank d.severity = 2 := by
      intro d hd
      have := (List.mem_filter.mp hd).2
      simp only [decide_eq_true_eq] at this
      simp [severity_rank, this]
    rw [hstep, ih hl]
    rcases ha with ha | ha | ha
    · have hrank : severity_rank a.severity = 0 := by simp [severity_rank, ha]
      have := insert_split a
        (l.filter (fun c => decide (c.severity = "high")))
        (l.filter (fun c => decide (c.severity = "medium")) ++
         l.filter (fun c => decide (c.severity = "low")))
        (fun d hd => by rw [hmemH d hd, hrank])
        (fun d hd => by
          rcases List.mem_append.mp hd with hd | hd
          · rw [hmemM d hd, hrank]; norm_num
          · rw [hmemL d hd, hrank]; norm_num)
      rw [List.append_assoc, this]
      simp [List.filter_append, ha, List.append_assoc]
    · have hrank : severity_rank a.severity = 1 := by simp [severity_rank, ha]
      have := insert_split a
        (l.filter (fun c => decide (c.severity = "high")) ++
         l.filter (fun c => decide (c.severity = "medium")))
        (l.filter (fun c => decide (c.severity = "low")))
        (fun d hd => by
          rcases List.mem_append.mp hd with hd | hd
          · rw [hmemH d hd, hrank]; norm_num
          · rw [hmemM d hd, hrank])
        (fun d hd => by rw [hmemL d hd, hrank]; norm_num)
      rw [this]
      simp [List.filter_append, ha, List.append_assoc]
    · have hrank : severity_rank a.severity = 2 := by simp [severity_rank, ha]
      have := insert_all_le a
        (l.filter (fun c => decide (c.severity = "high")) ++
         l.filter (fun c => decide (c.severity = "medium")) ++
         l.filter (fun c => decide (c.severity = "low")))
        (fun d hd => by
          rcases List.mem_append.mp hd with hd | hd
          · rcases List.mem_append.mp hd with hd | hd
            · rw [hmemH d hd, hrank]; norm_num
            · rw [hmemM d hd, hrank]; norm_num
          · rw [hmemL d hd, hrank])
      rw [this]
      simp [List.filter_append, ha, List.append_assoc]

end AlphaEngine

namespace AlphaEngine

theorem pairwise_of_mem_rel {α : Type} {R : α → α → Prop} :
    ∀ l : List α, (∀ a ∈ l, ∀ b ∈ l, R a b) → l.Pairwise R
  | [], _ => List.Pairwise.nil
  | a :: t, h =>
    List.Pairwise.cons
      (fun b hb => h a (List.mem_cons_self a t) b (List.mem_cons_of_mem a hb))
      (pairwise_of_mem_rel t
        (fun x hx y hy => h x (List.mem_cons_of_mem a hx) y (List.mem_cons_of_mem a hy)))

theorem overall_severity_high_count {cs : List Contradiction}
    (h : overall_severity cs = "high") : 1 ≤ ContradictionEngine.high_count cs := by
  simp only [overall_severity] at h
  split_ifs at h with h1 h2 h3
  · simp at h
  · obtain ⟨c, hc, hcs⟩ := List.mem_map.mp h2
    have hmem : c ∈ cs.filter (fun c => decide (c.severity = "high")) :=
      List.mem_filter.mpr ⟨hc, by simp [hcs]⟩
    exact List.length_pos_of_mem hmem
  · simp at h
  · simp at h

theorem alpha_potential_of_high_count {cs : List Contradiction}
    (h : 1 ≤ ContradictionEngine.high_count cs) :
    alpha_potential cs.length (ContradictionEngine.high_count cs)
      (ContradictionEngine.med_count cs) = "high" ∨
    alpha_potential cs.length (ContradictionEngine.high_count cs)
      (ContradictionEngine.med_count cs) = "medium" := by
  unfold alpha_potential
  split_ifs with h1 h2 h3 <;> simp_all

end AlphaEngine

namespace AlphaEngine

/-! ## Claim theorems -/

/-- C3: an emitted contradiction's severity is computed from
`score = 0.6 * mean(strength_a, strength_b) + 0.4 * mean(conf_a, conf_b)`:
high exactly when `score ≥ 0.6`, medium exactly when `0.4 ≤ score < 0.6`,
low otherwise; and on the concrete scenario (insider_activity bullish
0.6/0.5, valuation bearish 0.5/0.6, all others neutral 0/0) `detect`
emits exactly one contradiction, with category smart_money_divergence and
severity medium (score 0.55). -/
theorem claim_C3 :
    (∀ combined_strength conf_a conf_b : ℚ,
      (classify_severity combined_strength conf_a conf_b = "high" ↔
        combined_strength * (6/10) + (conf_a + conf_b) / 2 * (4/10) ≥ 6/10) ∧
      (classify_severity combined_strength conf_a conf_b = "medium" ↔
        combined_strength * (6/10) + (conf_a + conf_b) / 2 * (4/10) ≥ 4/10 ∧
        combined_strength * (6/10) + (conf_a + conf_b) / 2 * (4/10) < 6/10) ∧
      (classify_severity combined_strength conf_a conf_b = "low" ↔
        combined_strength * (6/10) + (conf_a + conf_b) / 2 * (4/10) < 4/10)) ∧
    (ContradictionEngine.detect C3_scenario).map (fun c => (c.category, c.severity)) =
      [("smart_money_divergence", "medium")] := by
  constructor
  · intro cs ca cb
    simp only [classify_severity]
    split_ifs with h1 h2
    · exact ⟨iff_of_true rfl h1,
        iff_of_false (by decide) (fun h => absurd h1 (not_le.mpr h.2)),
        iff_of_false (by decide) (fun h => absurd h1 (not_le.mpr (by linarith)))⟩
    · exact ⟨iff_of_false (by decide) h1,
        iff_of_true rfl ⟨h2, lt_of_not_ge h1⟩,
        iff_of_false (by decide) (fun h => absurd h2 (not_le.mpr h))⟩
    · exact ⟨iff_of_false (by decide) h1,
        iff_of_false (by decide) (fun h => absurd h.1 h2),
        iff_of_true rfl (lt_of_not_ge h2)⟩
  · norm_num +decide [ContradictionEngine.detect, ContradictionEngine.detect_unsorted,
      CONTRADICTION_RULES, signal_map, check_pair, classify_severity, C3_scenario,
      sort_by_severity, insert_by_severity, severity_rank, List.filterMap, upperStr]

end AlphaEngine

namespace AlphaEngine

/-- C4: the alpha_potential field of score_overall is high exactly when
there are at least 2 high-severity contradictions or at least 1 high and
at least 2 medium; medium exactly when not high and (at least 1 high, or
at least 2 medium, or at least 3 total); low exactly when neither and at
least 1 contradiction; none exactly when there are zero contradictions.
In particular two high-severity contradictions always yield high. -/
theorem claim_C4 (signals : List Signal) (cs : List Contradiction) :
    ((ContradictionEngine.score_overall signals cs).alpha_potential = "high" ↔
      2 ≤ ContradictionEngine.high_count cs ∨
      (1 ≤ ContradictionEngine.high_count cs ∧ 2 ≤ ContradictionEngine.med_count cs)) ∧
    ((ContradictionEngine.score_overall signals cs).alpha_potential = "medium" ↔
      ¬(2 ≤ ContradictionEngine.high_count cs ∨
        (1 ≤ ContradictionEngine.high_count cs ∧ 2 ≤ ContradictionEngine.med_count cs)) ∧
      (1 ≤ ContradictionEngine.high_count cs ∨ 2 ≤ ContradictionEngine.med_count cs ∨
       3 ≤ cs.length)) ∧
    ((ContradictionEngine.score_overall signals cs).alpha_potential = "low" ↔
      ¬(2 ≤ ContradictionEngine.high_count cs ∨
        (1 ≤ ContradictionEngine.high_count cs ∧ 2 ≤ ContradictionEngine.med_count cs)) ∧
      ¬(1 ≤ ContradictionEngine.high_count cs ∨ 2 ≤ ContradictionEngine.med_count cs ∨
        3 ≤ cs.length) ∧
      1 ≤ cs.length) ∧
    ((ContradictionEngine.score_overall signals cs).alpha_potential = "none" ↔
      cs.length = 0) ∧
    (2 ≤ ContradictionEngine.high_count cs →
      (ContradictionEngine.score_overall signals cs).alpha_potential = "high") := by
  have hh : ContradictionEngine.high_count cs ≤ cs.length := List.length_filter_le _ _
  have hm : ContradictionEngine.med_count cs ≤ cs.length := List.length_filter_le _ _
  have e : (ContradictionEngine.score_overall signals cs).alpha_potential =
      alpha_potential cs.length (ContradictionEngine.high_count cs)
        (ContradictionEngine.med_count cs) := rfl
  rw [e]
  unfold alpha_potential
  split_ifs with h1 h2 h3
  · exact ⟨iff_of_true rfl h1,
      iff_of_false (by decide) (fun h => h.1 h1),
      iff_of_false (by decide) (fun h => h.1 h1),
      iff_of_false (by decide) (by omega),
      fun _ => rfl⟩
  · exact ⟨iff_of_false (by decide) h1,
      iff_of_true rfl ⟨h1, h2⟩,
      iff_of_false (by decide) (fun h => h.2.1 h2),
      iff_of_false (by decide) (by omega),
      fun h => absurd (Or.inl h) h1⟩
  · exact ⟨iff_of_false (by decide) h1,
      iff_of_false (by decide) (fun h => h2 h.2),
      iff_of_true rfl ⟨h1, h2, h3⟩,
      iff_of_false (by decide) (by omega),
      fun h => absurd (Or.inl h) h1⟩
  · exact ⟨iff_of_false (by decide) h1,
      iff_of_false (by decide) (fun h => h2 h.2),
      iff_of_false (by decide) (fun h => h3 h.2.2),
      iff_of_true rfl (by omega),
      fun h => absurd (Or.inl h) h1⟩

/-- Witness for C4 at a concrete contradiction list with two high
severities (and one low): alpha potential is high. -/
theorem claim_C4_witness :
    2 ≤ ContradictionEngine.high_count C4_example_contradictions ∧
    (ContradictionEngine.score_overall [] C4_example_contradictions).alpha_potential =
      "high" := by
  have h2 : 2 ≤ ContradictionEngine.high_count C4_example_contradictions := by
    norm_num +decide [ContradictionEngine.high_count, C4_example_contradictions]
  exact ⟨h2, (claim_C4 [] C4_example_contradictions).2.2.2.2 h2⟩

end AlphaEngine

namespace AlphaEngine

open ContradictionEngine in
/-- C1: for signal lists with nonnegative strengths, score_overall
returns direction neutral with strength 0 exactly when the total weight
is 0; bullish with strength `bull_weight / (total_weight + 0.001)`
(rounded to two decimals on output) exactly when
`bull_weight > 1.3 * bear_weight`; bearish symmetrically; and mixed with
strength `1 - |bull - bear| / (total + 0.001)` exactly when the total
weight is positive and neither side clears the 1.3 margin.  On the
worked example with `bull_weight = 0.9`, `bear_weight = 0.2` the
direction is bullish and the returned strength is the two-decimal
rounding 0.82 of 0.9/1.101 which is within 0.01 of 0.818. -/
theorem claim_C1 (signals : List Signal) (contradictions : List Contradiction)
    (hpos : ∀ s ∈ signals, 0 ≤ s.strength) :
    (((score_overall signals contradictions).consensus_direction = "neutral" ↔
        total_weight signals = 0) ∧
     (total_weight signals = 0 →
        (score_overall signals contradictions).consensus_strength = 0) ∧
     ((score_overall signals contradictions).consensus_direction = "bullish" ↔
        bull_weight signals > bear_weight signals * (13/10)) ∧
     (bull_weight signals > bear_weight signals * (13/10) →
        (score_overall signals contradictions).consensus_strength =
          round2 (bull_weight signals / (total_weight signals + 1/1000))) ∧
     ((score_overall signals contradictions).consensus_direction = "bearish" ↔
        bear_weight signals > bull_weight signals * (13/10)) ∧
     (bear_weight signals > bull_weight signals * (13/10) →
        (score_overall signals contradictions).consensus_strength =
          round2 (bear_weight signals / (total_weight signals + 1/1000))) ∧
     ((score_overall signals contradictions).consensus_direction = "mixed" ↔
        0 < total_weight signals ∧
        ¬ bull_weight signals > bear_weight signals * (13/10) ∧
        ¬ bear_weight signals > bull_weight signals * (13/10)) ∧
     ((0 < total_weight signals ∧
        ¬ bull_weight signals > bear_weight signals * (13/10) ∧
        ¬ bear_weight signals > bull_weight signals * (13/10)) →
        (score_overall signals contradictions).consensus_strength =
          round2 (1 - |bull_weight signals - bear_weight signals| /
            (total_weight signals + 1/1000)))) ∧
    (bull_weight C1_example_signals = 9/10 ∧ bear_weight C1_example_signals = 1/5 ∧
     (score_overall C1_example_signals []).consensus_direction = "bullish" ∧
     (score_overall C1_example_signals []).consensus_strength =
       round2 ((9/10) / (11/10 + 1/1000)) ∧
     (score_overall C1_example_signals []).consensus_strength = 41/50 ∧
     |(41/50 : ℚ) - (9/10) / (11/10 + 1/1000)| < 1/100) := by
  constructor
  · have hbw := bull_weight_nonneg signals hpos
    have hrw := bear_weight_nonneg signals hpos
    have htw : total_weight signals = bull_weight signals + bear_weight signals := rfl
    have ed : (score_overall signals contradictions).consensus_direction =
        consensus_direction_raw signals := rfl
    have es : (score_overall signals contradictions).consensus_strength =
        round2 (consensus_strength_raw signals) := rfl
    rw [ed, es]
    unfold consensus_direction_raw consensus_strength_raw
    split_ifs with h1 h2 h3
    · refine ⟨iff_of_true rfl h1, fun _ => round2_zero, ?_, ?_, ?_, ?_, ?_, ?_⟩
      · exact iff_of_false (by decide) (by rw [htw] at h1; intro h; linarith)
      · intro h; rw [htw] at h1; linarith
      · exact iff_of_false (by decide) (by rw [htw] at h1; intro h; linarith)
      · intro h; rw [htw] at h1; linarith
      · exact iff_of_false (by decide) (fun h => absurd h1 h.1.ne')
      · intro h; exact absurd h1 h.1.ne'
    · refine ⟨iff_of_false (by decide) (fun h => h1 h), fun h => absurd h h1,
        iff_of_true rfl h2, fun _ => rfl, ?_, ?_, ?_, ?_⟩
      · exact iff_of_false (by decide) (by intro h; rw [htw] at *; linarith)
      · intro h; rw [htw] at *; linarith
      · exact iff_of_false (by decide) (fun h => h.2.1 h2)
      · intro h; exact absurd h2 h.2.1
    · refine ⟨iff_of_false (by decide) (fun h => h1 h), fun h => absurd h h1,
        iff_of_false (by decide) h2, fun h => absurd h h2,
        iff_of_true rfl h3, fun _ => rfl, ?_, ?_⟩
      · exact iff_of_false (by decide) (fun h => h.2.2 h3)
      · intro h; exact absurd h3 h.2.2
    · have hpos' : 0 < total_weight signals := by
        rcases lt_or_eq_of_le (by rw [htw]; linarith :
          (0:ℚ) ≤ total_weight signals) with h | h
        · exact h
        · exact absurd h.symm h1
      refine ⟨iff_of_false (by decide) (fun h => h1 h), fun h => absurd h h1,
        iff_of_false (by decide) h2, fun h => absurd h h2,
        iff_of_false (by decide) h3, fun h => absurd h h3,
        iff_of_true rfl ⟨hpos', h2, h3⟩, fun _ => rfl⟩
  · refine ⟨?_, ?_, ?_, ?_, ?_, ?_⟩
    · simp only [ContradictionEngine.bull_weight, ContradictionEngine.bullish_signals,
        C1_example_signals, List.filter_cons, List.filter_nil, decide_eq_true_eq]
      norm_num +decide
    · simp only [ContradictionEngine.bear_weight, ContradictionEngine.bearish_signals,
        C1_example_signals, List.filter_cons, List.filter_nil, decide_eq_true_eq]
      norm_num +decide
    · norm_num +decide [ContradictionEngine.score_overall, consensus_direction_raw,
        ContradictionEngine.total_weight, ContradictionEngine.bull_weight,
        ContradictionEngine.bear_weight, ContradictionEngine.bullish_signals,
        ContradictionEngine.bearish_signals, C1_example_signals]
    · norm_num +decide [ContradictionEngine.score_overall, consensus_strength_raw,
        ContradictionEngine.total_weight, ContradictionEngine.bull_weight,
        ContradictionEngine.bear_weight, ContradictionEngine.bullish_signals,
        ContradictionEngine.bearish_signals, C1_example_signals]
    · norm_num +decide [ContradictionEngine.score_overall, consensus_strength_raw,
        ContradictionEngine.total_weight, ContradictionEngine.bull_weight,
        ContradictionEngine.bear_weight, ContradictionEngine.bullish_signals,
        ContradictionEngine.bearish_signals, C1_example_signals, round2, round_eq,
        Int.floor_eq_iff]
    · norm_num [abs_of_pos]

end AlphaEngine

namespace AlphaEngine

/-- Witness for C1: the nonnegativity hypothesis holds on the concrete
example signals, and the theorem instantiates there. -/
theorem claim_C1_witness :
    (∀ s ∈ C1_example_signals, 0 ≤ s.strength) ∧
    (ContradictionEngine.score_overall C1_example_signals []).consensus_direction =
      "bullish" := by
  have hpos : ∀ s ∈ C1_example_signals, 0 ≤ s.strength := by
    intro s hs
    simp only [C1_example_signals, List.mem_cons, List.not_mem_nil, or_false] at hs
    rcases hs with rfl | rfl <;> norm_num
  exact ⟨hpos, (claim_C1 C1_example_signals [] hpos).2.2.2.1⟩

end AlphaEngine

namespace AlphaEngine

open ContradictionEngine in
/-- C10: for signal lists with nonnegative strengths the raw consensus
strength lies in [0,1] in all four branches — it is 0 when the total
weight is 0, strictly below 1 in the bullish and bearish branches
(denominator exceeds the winning weight by bear/bull weight + 0.001),
and strictly positive and at most 1 in the mixed branch (since
`|bull - bear| ≤ total < total + 0.001`); the returned
consensus_strength field is its two-decimal rounding and also lies in
[0,1]. -/
theorem claim_C10 (signals : List Signal) (contradictions : List Contradiction)
    (hpos : ∀ s ∈ signals, 0 ≤ s.strength) :
    (0 ≤ consensus_strength_raw signals ∧ consensus_strength_raw signals ≤ 1) ∧
    (total_weight signals = 0 → consensus_strength_raw signals = 0) ∧
    (bull_weight signals > bear_weight signals * (13/10) →
      consensus_strength_raw signals < 1) ∧
    (bear_weight signals > bull_weight signals * (13/10) →
      consensus_strength_raw signals < 1) ∧
    ((¬ total_weight signals = 0 ∧
      ¬ bull_weight signals > bear_weight signals * (13/10) ∧
      ¬ bear_weight signals > bull_weight signals * (13/10)) →
      0 < consensus_strength_raw signals) ∧
    ((ContradictionEngine.score_overall signals contradictions).consensus_strength =
      round2 (consensus_strength_raw signals) ∧
     0 ≤ (ContradictionEngine.score_overall signals contradictions).consensus_strength ∧
     (ContradictionEngine.score_overall signals contradictions).consensus_strength ≤ 1) := by
  have hbw := bull_weight_nonneg signals hpos
  have hrw := bear_weight_nonneg signals hpos
  have htw : total_weight signals = bull_weight signals + bear_weight signals := rfl
  have key : (0 ≤ consensus_strength_raw signals ∧ consensus_strength_raw signals ≤ 1) ∧
      (total_weight signals = 0 → consensus_strength_raw signals = 0) ∧
      (bull_weight signals > bear_weight signals * (13/10) →
        consensus_strength_raw signals < 1) ∧
      (bear_weight signals > bull_weight signals * (13/10) →
        consensus_strength_raw signals < 1) ∧
      ((¬ total_weight signals = 0 ∧
        ¬ bull_weight signals > bear_weight signals * (13/10) ∧
        ¬ bear_weight signals > bull_weight signals * (13/10)) →
        0 < consensus_strength_raw signals) := by
    unfold consensus_strength_raw
    split_ifs with h1 h2 h3
    · refine ⟨⟨le_refl 0, by norm_num⟩, fun _ => rfl, ?_, ?_, ?_⟩
      · intro h; rw [htw] at h1; exact absurd h (by nlinarith)
      · intro h; rw [htw] at h1; exact absurd h (by nlinarith)
      · intro h; exact absurd h1 h.1
    · have hden : 0 < total_weight signals + 1/1000 := by rw [htw]; linarith
      have hlt : bull_weight signals / (total_weight signals + 1/1000) < 1 := by
        rw [div_lt_one hden, htw]; linarith
      refine ⟨⟨div_nonneg hbw (le_of_lt hden), le_of_lt hlt⟩,
        fun h => absurd h h1, fun _ => hlt, ?_, fun h => absurd h2 h.2.1⟩
      · intro h; nlinarith
    · have hden : 0 < total_weight signals + 1/1000 := by rw [htw]; linarith
      have hlt : bear_weight signals / (total_weight signals + 1/1000) < 1 := by
        rw [div_lt_one hden, htw]; linarith
      refine ⟨⟨div_nonneg hrw (le_of_lt hden), le_of_lt hlt⟩,
        fun h => absurd h h1, ?_, fun _ => hlt, fun h => absurd h3 h.2.2⟩
      · intro h; nlinarith
    · have hden : 0 < total_weight signals + 1/1000 := by rw [htw]; linarith
      have habs : |bull_weight signals - bear_weight signals| ≤ total_weight signals := by
        rw [htw]
        exact abs_le.mpr ⟨by linarith, by linarith⟩
      have hratio_lt : |bull_weight signals - bear_weight signals| /
          (total_weight signals + 1/1000) < 1 := by
        rw [div_lt_one hden]
        exact lt_of_le_of_lt habs (by linarith)
      have hratio_nonneg : 0 ≤ |bull_weight signals - bear_weight signals| /
          (total_weight signals + 1/1000) :=
        div_nonneg (abs_nonneg _) (le_of_lt hden)
      refine ⟨⟨by linarith, by linarith⟩, fun h => absurd h h1,
        fun h => absurd h h2, fun h => absurd h h3, fun _ => by linarith⟩
  exact ⟨key.1, key.2.1, key.2.2.1, key.2.2.2.1, key.2.2.2.2,
    rfl, round2_nonneg key.1.1, round2_le_one key.1.2⟩

/-- Witness for C10 at the concrete mixed-branch input (equal bull and
bear weights 0.5). -/
theorem claim_C10_witness :
    (∀ s ∈ C10_example_signals, 0 ≤ s.strength) ∧
    (0 ≤ ContradictionEngine.consensus_strength_raw C10_example_signals ∧
     ContradictionEngine.consensus_strength_raw C10_example_signals ≤ 1) := by
  have hpos : ∀ s ∈ C10_example_signals, 0 ≤ s.strength := by
    intro s hs
    simp only [C10_example_signals, List.mem_cons, List.not_mem_nil, or_false] at hs
    rcases hs with rfl | rfl <;> norm_num
  exact ⟨hpos, (claim_C10 C10_example_signals [] hpos).1⟩

end AlphaEngine

namespace AlphaEngine

/-- C2: every contradiction emitted by detect references two signals
whose directions are both non-neutral and strictly unequal, whose
confidences are not both below 0.2, and whose strengths both reach the
emitting rule's min_strength floor; conversely check_pair emits nothing
whenever any of these conditions fails. -/
theorem claim_C2 :
    (∀ (signals : List Signal) (c : Contradiction),
      c ∈ ContradictionEngine.detect signals →
      c.signal_a.direction ≠ "neutral" ∧ c.signal_b.direction ≠ "neutral" ∧
      c.signal_a.direction ≠ c.signal_b.direction ∧
      ¬(c.signal_a.confidence < 1/5 ∧ c.signal_b.confidence < 1/5) ∧
      ∃ r ∈ CONTRADICTION_RULES, c.category = r.category ∧
        r.min_strength ≤ c.signal_a.strength ∧ r.min_strength ≤ c.signal_b.strength) ∧
    (∀ (sig_a sig_b : Signal) (m : ℚ) (category resolution : String),
      (sig_a.direction = "neutral" ∨ sig_b.direction = "neutral" ∨
       sig_a.direction = sig_b.direction ∨
       sig_a.strength < m ∨ sig_b.strength < m ∨
       (sig_a.confidence < 1/5 ∧ sig_b.confidence < 1/5)) →
      check_pair sig_a sig_b m category resolution = none) := by
  constructor
  · intro signals c hc
    rw [ContradictionEngine.detect, mem_sort_by_severity] at hc
    obtain ⟨r, hr, sig_a, sig_b, -, -, hcp⟩ := detect_unsorted_mem hc
    obtain ⟨ha, hb, hcat, hna, hnb, hne, hsa, hsb, hconf, -⟩ := check_pair_eq_some hcp
    rw [ha, hb]
    exact ⟨hna, hnb, hne, hconf, r, hr, hcat, hsa, hsb⟩
  · intro sig_a sig_b m category resolution h
    unfold check_pair
    split_ifs with h1 h2 h3 h4
    · rfl
    · rfl
    · rfl
    · rfl
    · exfalso
      push_neg at h1 h3
      rcases h with h | h | h | h | h | h
      · exact h1.1 h
      · exact h1.2 h
      · exact h2 h
      · exact absurd h3.1 (not_le.mpr h)
      · exact absurd h3.2 (not_le.mpr h)
      · exact h4 h

/-- Witness for C2: the concrete contradiction detected on
`C2_wit_signals` satisfies the invariant, and a concrete pair with a
neutral first signal is rejected by check_pair. -/
theorem claim_C2_witness :
    (C2_wit_contra ∈ ContradictionEngine.detect C2_wit_signals ∧
     C2_wit_contra.signal_a.direction ≠ C2_wit_contra.signal_b.direction) ∧
    check_pair ⟨"technical", "neutral", 1, 1, ""⟩ ⟨"valuation", "bullish", 1, 1, ""⟩
      (3/10) "smart_money_divergence" "note" = none := by
  constructor
  · have hmem : C2_wit_contra ∈ ContradictionEngine.detect C2_wit_signals := by
      norm_num +decide [ContradictionEngine.detect, ContradictionEngine.detect_unsorted,
        CONTRADICTION_RULES, signal_map, check_pair, classify_severity, C2_wit_signals,
        C2_wit_contra, sort_by_severity, insert_by_severity, severity_rank,
        List.filterMap, upperStr]
    exact ⟨hmem, (claim_C2.1 C2_wit_signals C2_wit_contra hmem).2.2.1⟩
  · exact claim_C2.2 _ _ _ _ _ (Or.inl rfl)

end AlphaEngine

namespace AlphaEngine

/-- C7: detect output is sorted by severity (high before medium before
low, i.e. non-decreasing severity rank), and the sort is stable: the
output is exactly the high contradictions in rule-table emission order,
then the medium ones, then the low ones. -/
theorem claim_C7 (signals : List Signal) :
    (ContradictionEngine.detect signals).Pairwise
      (fun c d => severity_rank c.severity ≤ severity_rank d.severity) ∧
    ContradictionEngine.detect signals =
      (ContradictionEngine.detect_unsorted signals).filter
        (fun c => decide (c.severity = "high")) ++
      (ContradictionEngine.detect_unsorted signals).filter
        (fun c => decide (c.severity = "medium")) ++
      (ContradictionEngine.detect_unsorted signals).filter
        (fun c => decide (c.severity = "low")) := by
  have hsev : ∀ c ∈ ContradictionEngine.detect_unsorted signals,
      c.severity = "high" ∨ c.severity = "medium" ∨ c.severity = "low" :=
    fun c hc => detect_unsorted_severity_mem hc
  have hbuckets : ContradictionEngine.detect signals =
      (ContradictionEngine.detect_unsorted signals).filter
        (fun c => decide (c.severity = "high")) ++
      (ContradictionEngine.detect_unsorted signals).filter
        (fun c => decide (c.severity = "medium")) ++
      (ContradictionEngine.detect_unsorted signals).filter
        (fun c => decide (c.severity = "low")) := by
    rw [ContradictionEngine.detect]
    exact sort_by_severity_eq_buckets _ hsev
  refine ⟨?_, hbuckets⟩
  rw [hbuckets]
  have rankH : ∀ d ∈ (ContradictionEngine.detect_unsorted signals).filter
      (fun c => decide (c.severity = "high")), severity_rank d.severity = 0 := by
    intro d hd
    have := (List.mem_filter.mp hd).2
    simp only [decide_eq_true_eq] at this
    simp [severity_rank, this]
  have rankM : ∀ d ∈ (ContradictionEngine.detect_unsorted signals).filter
      (fun c => decide (c.severity = "medium")), severity_rank d.severity = 1 := by
    intro d hd
    have := (List.mem_filter.mp hd).2
    simp only [decide_eq_true_eq] at this
    simp [severity_rank, this]
  have rankL : ∀ d ∈ (ContradictionEngine.detect_unsorted signals).filter
      (fun c => decide (c.severity = "low")), severity_rank d.severity = 2 := by
    intro d hd
    have := (List.mem_filter.mp hd).2
    simp only [decide_eq_true_eq] at this
    simp [severity_rank, this]
  rw [List.pairwise_append]
  refine ⟨?_, ?_, ?_⟩
  · rw [List.pairwise_append]
    refine ⟨pairwise_of_mem_rel _ (fun a ha b hb => by rw [rankH a ha, rankH b hb]),
      pairwise_of_mem_rel _ (fun a ha b hb => by rw [rankM a ha, rankM b hb]), ?_⟩
    intro a ha b hb
    rw [rankH a ha, rankM b hb]
    norm_num
  · exact pairwise_of_mem_rel _ (fun a ha b hb => by rw [rankL a ha, rankL b hb])
  · intro a ha b hb
    rw [rankL b hb]
    rcases List.mem_append.mp ha with ha | ha
    · rw [rankH a ha]; norm_num
    · rw [rankM a ha]; norm_num

end AlphaEngine

namespace AlphaEngine

open ContinuousMonitor ContradictionEngine in
/-- C9: the interpretation helper, applied to a score produced by
score_overall, returns the turning-point message exactly when alpha
potential is high and contradiction severity is high; otherwise the
wait-for-catalyst message exactly when alpha potential is medium;
otherwise, for a bullish or bearish consensus, the trend-following
message exactly when consensus strength exceeds 0.7 (in which case no
high-severity contradiction can be present); and the no-clear-edge
message otherwise. -/
theorem claim_C9 (signals : List Signal) (contradictions : List Contradiction) :
    (interpret_idea (score_overall signals contradictions) = msg_turning_point ↔
      (score_overall signals contradictions).alpha_potential = "high" ∧
      (score_overall signals contradictions).contradiction_severity = "high") ∧
    (¬((score_overall signals contradictions).alpha_potential = "high" ∧
       (score_overall signals contradictions).contradiction_severity = "high") →
      (interpret_idea (score_overall signals contradictions) = msg_wait_catalyst ↔
        (score_overall signals contradictions).alpha_potential = "medium")) ∧
    (¬((score_overall signals contradictions).alpha_potential = "high" ∧
       (score_overall signals contradictions).contradiction_severity = "high") →
     (score_overall signals contradictions).alpha_potential ≠ "medium" →
     ((score_overall signals contradictions).consensus_direction = "bullish" ∨
      (score_overall signals contradictions).consensus_direction = "bearish") →
      (interpret_idea (score_overall signals contradictions) =
          msg_trend (score_overall signals contradictions).consensus_direction ↔
        7/10 < (score_overall signals contradictions).consensus_strength ∧
        (score_overall signals contradictions).contradiction_severity ≠ "high")) ∧
    (¬((score_overall signals contradictions).alpha_potential = "high" ∧
       (score_overall signals contradictions).contradiction_severity = "high") →
     (score_overall signals contradictions).alpha_potential ≠ "medium" →
     ¬(((score_overall signals contradictions).consensus_direction = "bullish" ∨
        (score_overall signals contradictions).consensus_direction = "bearish") ∧
       7/10 < (score_overall signals contradictions).consensus_strength) →
      interpret_idea (score_overall signals contradictions) = msg_no_edge) := by
  have hsevcon : (score_overall signals contradictions).contradiction_severity = "high" →
      (score_overall signals contradictions).alpha_potential = "high" ∨
      (score_overall signals contradictions).alpha_potential = "medium" := by
    intro hsev
    have h1 : 1 ≤ high_count contradictions :=
      overall_severity_high_count hsev
    exact alpha_potential_of_high_count h1
  unfold ContinuousMonitor.interpret_idea
  split_ifs with hA hB hC
  · exact ⟨iff_of_true rfl hA,
      fun hnA => absurd hA hnA,
      fun hnA => absurd hA hnA,
      fun hnA => absurd hA hnA⟩
  · refine ⟨iff_of_false (by decide) hA, fun _ => iff_of_true rfl hB,
      fun _ hnB => absurd hB hnB, fun _ hnB => absurd hB hnB⟩
  · have hsevne : (score_overall signals contradictions).contradiction_severity ≠ "high" := by
      intro hsev
      rcases hsevcon hsev with h | h
      · exact hA ⟨h, hsev⟩
      · exact hB h
    refine ⟨?_, fun _ => ?_, fun _ _ _ => iff_of_true rfl ⟨hC.2, hsevne⟩,
      fun _ _ hn => absurd ⟨hC.1, hC.2⟩ hn⟩
    · refine iff_of_false ?_ hA
      rcases hC.1 with h | h <;> rw [h] <;> decide
    · refine iff_of_false ?_ hB
      rcases hC.1 with h | h <;> rw [h] <;> decide
  · refine ⟨iff_of_false (by decide) hA, fun _ => iff_of_false (by decide) hB,
      fun _ _ hdir => ?_, fun _ _ _ => rfl⟩
    refine iff_of_false ?_ (fun h => hC ⟨hdir, h.1⟩)
    rcases hdir with h | h <;> rw [h] <;> decide

/-- Witness for C9 on the empty inputs: alpha potential is none,
severity none, direction neutral, so the helper returns the no-edge
message. -/
theorem claim_C9_witness :
    ContinuousMonitor.interpret_idea (ContradictionEngine.score_overall [] []) =
      ContinuousMonitor.msg_no_edge := by
  have hA : ¬((ContradictionEngine.score_overall ([]:List Signal) []).alpha_potential = "high" ∧
      (ContradictionEngine.score_overall ([]:List Signal) []).contradiction_severity = "high") := by
    intro h
    have : (ContradictionEngine.score_overall ([]:List Signal) []).alpha_potential =
        alpha_potential 0 0 0 := rfl
    rw [this] at h
    simp [alpha_potential] at h
  have hB : (ContradictionEngine.score_overall ([]:List Signal) []).alpha_potential ≠ "medium" := by
    have : (ContradictionEngine.score_overall ([]:List Signal) []).alpha_potential =
        alpha_potential 0 0 0 := rfl
    rw [this]
    simp [alpha_potential]
  have hC : ¬(((ContradictionEngine.score_overall ([]:List Signal) []).consensus_direction = "bullish" ∨
      (ContradictionEngine.score_overall ([]:List Signal) []).consensus_direction = "bearish") ∧
      7/10 < (ContradictionEngine.score_overall ([]:List Signal) []).consensus_strength) := by
    intro h
    have hd : (ContradictionEngine.score_overall ([]:List Signal) []).consensus_direction =
        "neutral" := by
      norm_num [ContradictionEngine.score_overall, ContradictionEngine.consensus_direction_raw,
        ContradictionEngine.total_weight, ContradictionEngine.bull_weight,
        ContradictionEngine.bear_weight, ContradictionEngine.bullish_signals,
        ContradictionEngine.bearish_signals]
    rw [hd] at h
    rcases h.1 with h' | h' <;> simp at h'
  exact (claim_C9 [] []).2.2.2 hA hB hC

end AlphaEngine

namespace AlphaEngine

theorem run_one_name (run : String → Except String Signal)
    (hnames : ∀ name s, run name = Except.ok s → s.name = name) (n : String) :
    (Runner.run_one run n).name = n := by
  unfold Runner.run_one
  cases h : run n with
  | ok s => exact hnames n s h
  | error e => rfl

/-- C8: for every assignment of extractor outcomes (normal result or
raised exception), the orchestrating loop returns exactly one signal per
category, in the fixed eight-category order; a raised exception is
replaced by a neutral, zero-strength, zero-confidence signal whose
reasoning carries the failure reason; and no exception propagates (the
model is a total function). -/
theorem claim_C8 (run : String → Except String Signal)
    (hnames : ∀ name s, run name = Except.ok s → s.name = name) :
    (Runner.extract_all_signals run).length = 8 ∧
    (Runner.extract_all_signals run).map (fun s => s.name) = Runner.extractor_names ∧
    (∀ i, i < 8 →
      (∀ s, run (Runner.extractor_names.getD i "") = Except.ok s →
        (Runner.extract_all_signals run).getD i default = s) ∧
      (∀ exc, run (Runner.extractor_names.getD i "") = Except.error exc →
        (Runner.extract_all_signals run).getD i default =
          ⟨Runner.extractor_names.getD i "", "neutral", 0, 0,
            "Extraction failed: " ++ exc⟩)) := by
  refine ⟨?_, ?_, ?_⟩
  · simp [Runner.extract_all_signals, Runner.extractor_names]
  · rw [Runner.extract_all_signals, List.map_map]
    have : ∀ n ∈ Runner.extractor_names,
        ((fun s => s.name) ∘ Runner.run_one run) n = id n := by
      intro n _
      exact run_one_name run hnames n
    rw [List.map_congr_left this, List.map_id]
  · intro i hi
    have hget : (Runner.extract_all_signals run).getD i default =
        Runner.run_one run (Runner.extractor_names.getD i "") := by
      interval_cases i <;>
        simp [Runner.extract_all_signals, Runner.extractor_names, List.getD]
    constructor
    · intro s hs
      rw [hget, Runner.run_one, hs]
    · intro exc hexc
      rw [hget, Runner.run_one, hexc]

/-- Witness for C8 with a concrete outcome assignment where the momentum
extractor raises and all others return a correctly named signal. -/
theorem claim_C8_witness :
    (Runner.extract_all_signals C8_wit_run).length = 8 ∧
    (Runner.extract_all_signals C8_wit_run).getD 5 default =
      ⟨"momentum", "neutral", 0, 0, "Extraction failed: boom"⟩ := by
  have hnames : ∀ name s, C8_wit_run name = Except.ok s → s.name = name := by
    intro n s h
    by_cases hb : n = "momentum"
    · subst hb; simp [C8_wit_run] at h
    · simp only [C8_wit_run, if_neg hb] at h
      obtain rfl := Option.some.inj (congrArg (fun x => x.toOption) h).symm
      rfl
  have h := claim_C8 C8_wit_run hnames
  refine ⟨h.1, ?_⟩
  have h5 := (h.2.2 5 (by norm_num)).2 "boom"
    (by simp [C8_wit_run, Runner.extractor_names, List.getD])
  have : ("Extraction failed: " ++ "boom" : String) = "Extraction failed: boom" := by decide
  rw [this] at h5
  have hname : (Runner.extractor_names.getD 5 "") = "momentum" := by
    simp [Runner.extractor_names, List.getD]
  rw [hname] at h5
  exact h5

end AlphaEngine

namespace AlphaEngine

/-- C5 (violation witness): the technical extractor, on a snapshot where
only the 52-week range and price are present, returns a BULLISH signal
of strength 0.3 with confidence 0; the momentum extractor, on a 6-row
price history, returns a BULLISH signal of strength 0.5 with confidence
0.  Both contradict the documented invariant that a confidence-0 signal
is neutral with strength 0. -/
theorem claim_C5_failing_eval :
    ((TechnicalSignal.extract C5_tech_input).confidence = 0 ∧
     (TechnicalSignal.extract C5_tech_input).direction = "bullish" ∧
     (TechnicalSignal.extract C5_tech_input).strength = 3/10) ∧
    ((MomentumSignal.extract C5_mom_input).confidence = 0 ∧
     (MomentumSignal.extract C5_mom_input).direction = "bullish" ∧
     (MomentumSignal.extract C5_mom_input).strength = 1/2) := by
  constructor
  · norm_num +decide [TechnicalSignal.extract, TechnicalSignal.scores,
      TechnicalSignal.score_rsi, TechnicalSignal.score_moving_averages,
      TechnicalSignal.score_52w_position, TechnicalSignal.assess_confidence,
      C5_tech_input, listMean, round2, round_eq, min_def, abs_of_pos]
  · norm_num +decide [MomentumSignal.extract, MomentumSignal.scores,
      MomentumSignal.score_price_trend, MomentumSignal.score_volume_confirmation,
      MomentumSignal.assess_confidence, C5_mom_input, ilocNeg, listMean,
      round2, round_eq, List.getD]
    simp [min_def, abs_of_pos]
    norm_num

end AlphaEngine

namespace AlphaEngine

/-- C6 counterexample: on a technical snapshot whose three collected
sub-scores are [0.2, 0.2, 0.3] the mean is 7/30, and the returned
strength is the two-decimal rounding 0.23, which is NOT equal to
`min(|mean|, 1) = 7/30` as the claim states. -/
theorem claim_C6_counterexample :
    TechnicalSignal.scores C6_cx_input = [2/10, 2/10, 3/10] ∧
    listMean (TechnicalSignal.scores C6_cx_input) = 7/30 ∧
    (TechnicalSignal.extract C6_cx_input).strength = 23/100 ∧
    (TechnicalSignal.extract C6_cx_input).strength ≠
      min |listMean (TechnicalSignal.scores C6_cx_input)| 1 := by
  have hscores : TechnicalSignal.scores C6_cx_input = [2/10, 2/10, 3/10] := by
    norm_num [TechnicalSignal.scores, TechnicalSignal.score_rsi,
      TechnicalSignal.score_moving_averages, TechnicalSignal.score_52w_position,
      C6_cx_input]
  have hmean : listMean (TechnicalSignal.scores C6_cx_input) = 7/30 := by
    rw [hscores]; norm_num [listMean]
  have hne : TechnicalSignal.scores C6_cx_input ≠ [] := by rw [hscores]; simp
  have hstrength : (TechnicalSignal.extract C6_cx_input).strength = 23/100 := by
    simp only [TechnicalSignal.extract]
    rw [if_neg hne]
    show round2 (min |listMean (TechnicalSignal.scores C6_cx_input)| 1) = 23/100
    rw [hmean]
    rw [show min |(7:ℚ)/30| 1 = 7/30 by
      rw [abs_of_pos (by norm_num)]; exact min_eq_left (by norm_num)]
    norm_num [round2, round_eq]
  refine ⟨hscores, hmean, hstrength, ?_⟩
  rw [hstrength, hmean]
  rw [show min |(7:ℚ)/30| 1 = 7/30 by
    rw [abs_of_pos (by norm_num)]; exact min_eq_left (by norm_num)]
  norm_num

/-- C6 (amended): in every one of the eight extractors, whenever at
least one sub-score was collected, the direction is derived from the
mean of the collected sub-scores by the shared rule (bullish above +0.1,
bearish below -0.1, neutral otherwise), and the strength is
`min(|mean|, 1)` rounded to two decimal places; the dead-zone and clamp
constants are the same in all eight categories. -/
theorem claim_C6_amended (d : Collectors.StockData) (m : Collectors.MacroData)
    (n : Collectors.NewsData) :
    (TechnicalSignal.scores d ≠ [] →
      (TechnicalSignal.extract d).direction =
        aggregate_direction (listMean (TechnicalSignal.scores d)) ∧
      (TechnicalSignal.extract d).strength =
        round2 (min |listMean (TechnicalSignal.scores d)| 1)) ∧
    (ValuationSignal.scores d ≠ [] →
      (ValuationSignal.extract d).direction =
        aggregate_direction (listMean (ValuationSignal.scores d)) ∧
      (ValuationSignal.extract d).strength =
        round2 (min |listMean (ValuationSignal.scores d)| 1)) ∧
    (InsiderSignal.scores d ≠ [] →
      (InsiderSignal.extract d).direction =
        aggregate_direction (listMean (InsiderSignal.scores d)) ∧
      (InsiderSignal.extract d).strength =
        round2 (min |listMean (InsiderSignal.scores d)| 1)) ∧
    (EarningsSignal.scores d ≠ [] →
      (EarningsSignal.extract d).direction =
        aggregate_direction (listMean (EarningsSignal.scores d)) ∧
      (EarningsSignal.extract d).strength =
        round2 (min |listMean (EarningsSignal.scores d)| 1)) ∧
    (OptionsSignal.scores d ≠ [] →
      (OptionsSignal.extract d).direction =
        aggregate_direction (listMean (OptionsSignal.scores d)) ∧
      (OptionsSignal.extract d).strength =
        round2 (min |listMean (OptionsSignal.scores d)| 1)) ∧
    (MomentumSignal.scores d ≠ [] →
      (MomentumSignal.extract d).direction =
        aggregate_direction (listMean (MomentumSignal.scores d)) ∧
      (MomentumSignal.extract d).strength =
        round2 (min |listMean (MomentumSignal.scores d)| 1)) ∧
    (MacroSignal.scores m ≠ [] →
      (MacroSignal.extract d m).direction =
        aggregate_direction (listMean (MacroSignal.scores m)) ∧
      (MacroSignal.extract d m).strength =
        round2 (min |listMean (MacroSignal.scores m)| 1)) ∧
    (NewsSignal.scores n ≠ [] →
      (NewsSignal.extract n).direction =
        aggregate_direction (listMean (NewsSignal.scores n)) ∧
      (NewsSignal.extract n).strength =
        round2 (min |listMean (NewsSignal.scores n)| 1)) := by
  refine ⟨?_, ?_, ?_, ?_, ?_, ?_, ?_, ?_⟩
  · intro h
    simp only [TechnicalSignal.extract]
    rw [if_neg h]
    exact ⟨rfl, rfl⟩
  · intro h
    simp only [ValuationSignal.extract]
    rw [if_neg h]
    exact ⟨rfl, rfl⟩
  · intro h
    simp only [InsiderSignal.extract]
    rw [if_neg h]
    exact ⟨rfl, rfl⟩
  · intro h
    simp only [EarningsSignal.extract]
    rw [if_neg h]
    exact ⟨rfl, rfl⟩
  · intro h
    simp only [OptionsSignal.extract]
    rw [if_neg h]
    exact ⟨rfl, rfl⟩
  · intro h
    simp only [MomentumSignal.extract]
    rw [if_neg h]
    exact ⟨rfl, rfl⟩
  · intro h
    simp only [MacroSignal.extract]
    rw [if_neg h]
    exact ⟨rfl, rfl⟩
  · intro h
    simp only [NewsSignal.extract]
    rw [if_neg h]
    exact ⟨rfl, rfl⟩

end AlphaEngine

namespace AlphaEngine

/-- Witness for the amended C6: on concrete snapshots each of the eight
extractors collected at least one sub-score, and the shared rule yields
the insider direction and the news strength there. -/
theorem claim_C6_witness :
    TechnicalSignal.scores C6_wit_stock ≠ [] ∧
    ValuationSignal.scores C6_wit_stock ≠ [] ∧
    InsiderSignal.scores C6_wit_stock ≠ [] ∧
    EarningsSignal.scores C6_wit_stock ≠ [] ∧
    OptionsSignal.scores C6_wit_stock ≠ [] ∧
    MomentumSignal.scores C6_wit_stock ≠ [] ∧
    MacroSignal.scores C6_wit_macro ≠ [] ∧
    NewsSignal.scores C6_wit_news ≠ [] ∧
    (InsiderSignal.extract C6_wit_stock).direction =
      aggregate_direction (listMean (InsiderSignal.scores C6_wit_stock)) ∧
    (NewsSignal.extract C6_wit_news).strength =
      round2 (min |listMean (NewsSignal.scores C6_wit_news)| 1) := by
  have h1 : TechnicalSignal.scores C6_wit_stock ≠ [] := by
    norm_num +decide [TechnicalSignal.scores, TechnicalSignal.score_rsi,
      TechnicalSignal.score_moving_averages, TechnicalSignal.score_52w_position,
      C6_wit_stock]
  have h2 : ValuationSignal.scores C6_wit_stock ≠ [] := by
    norm_num +decide [ValuationSignal.scores, ValuationSignal.score_pe,
      ValuationSignal.score_analyst_target, ValuationSignal.score_pb,
      ValuationSignal.score_ev_ebitda, C6_wit_stock]
  have h3 : InsiderSignal.scores C6_wit_stock ≠ [] := by
    norm_num +decide [InsiderSignal.scores, InsiderSignal.score_net_shares,
      InsiderSignal.score_transaction_pattern,
      InsiderSignal.score_institutional_ownership, C6_wit_stock]
  have h4 : EarningsSignal.scores C6_wit_stock ≠ [] := by
    norm_num +decide [EarningsSignal.scores, EarningsSignal.score_surprise_history,
      EarningsSignal.score_earnings_proximity, C6_wit_stock]
  have h5 : OptionsSignal.scores C6_wit_stock ≠ [] := by
    norm_num +decide [OptionsSignal.scores, OptionsSignal.score_put_call_ratio,
      OptionsSignal.score_iv_skew, C6_wit_stock]
  have h6 : MomentumSignal.scores C6_wit_stock ≠ [] := by
    norm_num +decide [MomentumSignal.scores, MomentumSignal.score_price_trend,
      MomentumSignal.score_volume_confirmation, C6_wit_stock, ilocNeg, List.getD]
  have h7 : MacroSignal.scores C6_wit_macro ≠ [] := by
    norm_num +decide [MacroSignal.scores, MacroSignal.score_vix,
      MacroSignal.score_yield_curve, MacroSignal.score_sector_rotation,
      MacroSignal.avg_return, C6_wit_macro]
  have h8 : NewsSignal.scores C6_wit_news ≠ [] := by
    norm_num +decide [NewsSignal.scores, NewsSignal.score_ticker_sentiment,
      NewsSignal.score_macro_sentiment, NewsSignal.score_volume_anomaly, C6_wit_news]
  have h := claim_C6_amended C6_wit_stock C6_wit_macro C6_wit_news
  exact ⟨h1, h2, h3, h4, h5, h6, h7, h8,
    (h.2.2.1 h3).1, (h.2.2.2.2.2.2.2 h8).2⟩

end AlphaEngine

namespace AlphaEngine

/-- C1 counterexample: on the claim's own example input
(`bull_weight = 0.9`, `bear_weight = 0.2`, bullish branch) the returned
consensus_strength is the two-decimal rounding 0.82, which differs from
the unrounded `bull_weight / (total_weight + 0.001) = 300/367`. -/
theorem claim_C1_counterexample :
    ContradictionEngine.bull_weight C1_example_signals = 9/10 ∧
    ContradictionEngine.bear_weight C1_example_signals = 1/5 ∧
    ContradictionEngine.bull_weight C1_example_signals >
      ContradictionEngine.bear_weight C1_example_signals * (13/10) ∧
    (ContradictionEngine.score_overall C1_example_signals []).consensus_strength = 41/50 ∧
    ContradictionEngine.bull_weight C1_example_signals /
      (ContradictionEngine.total_weight C1_example_signals + 1/1000) = 300/367 ∧
    (ContradictionEngine.score_overall C1_example_signals []).consensus_strength ≠
      ContradictionEngine.bull_weight C1_example_signals /
        (ContradictionEngine.total_weight C1_example_signals + 1/1000) := by
  have hbull : ContradictionEngine.bull_weight C1_example_signals = 9/10 := by
    simp only [ContradictionEngine.bull_weight, ContradictionEngine.bullish_signals,
      C1_example_signals, List.filter_cons, List.filter_nil, decide_eq_true_eq]
    norm_num +decide
  have hbear : ContradictionEngine.bear_weight C1_example_signals = 1/5 := by
    simp only [ContradictionEngine.bear_weight, ContradictionEngine.bearish_signals,
      C1_example_signals, List.filter_cons, List.filter_nil, decide_eq_true_eq]
    norm_num +decide
  have htot : ContradictionEngine.total_weight C1_example_signals = 11/10 := by
    rw [ContradictionEngine.total_weight, hbull, hbear]; norm_num
  have hstrength :
      (ContradictionEngine.score_overall C1_example_signals []).consensus_strength =
        41/50 := by
    norm_num +decide [ContradictionEngine.score_overall,
      ContradictionEngine.consensus_strength_raw, ContradictionEngine.total_weight,
      ContradictionEngine.bull_weight, ContradictionEngine.bear_weight,
      ContradictionEngine.bullish_signals, ContradictionEngine.bearish_signals,
      C1_example_signals, round2, round_eq, Int.floor_eq_iff]
  refine ⟨hbull, hbear, by rw [hbull, hbear]; norm_num, hstrength, ?_, ?_⟩
  · rw [hbull, htot]; norm_num
  · rw [hstrength, hbull, htot]; norm_num

end AlphaEngine
